import Mathlib

/-!
Verification of the DetectaBB boleto-analysis pipeline.

Shallow embedding of the Python sources:
  src/ml/validator.py   (FEBRABAN checksum validation)
  src/ml/parser.py      (field extraction from OCR text)
  src/ml/model.py       (feature preparation and classifier post-processing)
  src/ml/explainer.py   (humanised explanation bundle)
  src/worker/tasks.py   (score fusion in processar_boleto)

Modelling conventions:
  - Python `str` is modelled as `List Char` (abbrev `Str`); regular-expression
    searches are modelled as explicit leftmost-match scanners whose
    alternative order follows the Python pattern order.  The character
    classes of the patterns used here are pairwise disjoint at every
    optional-separator position, so greedy matching is deterministic;
    where the amount pattern genuinely backtracks, the scanner implements
    the same greedy-first backtracking.
  - Python `float` values are modelled as exact rationals `PyNum`
    (numerator/denominator, not normalised, so that every operation is a
    structural function the kernel can evaluate).  All concrete numbers
    appearing in the claims are exactly representable in binary64, so the
    exact-rational model agrees with the float semantics on them.
  - `datetime.now()` is a test seam: validators that consult the wall
    clock take the current date as an explicit proleptic-Gregorian
    ordinal (`Int`), matching `datetime.date.toordinal`, with the
    reference instant taken at midnight.
  - Machine integers do not occur (Python ints are unbounded); `int(x)`
    on a float is truncation toward zero (`pyInt`).
  - Code paths that raise (`TypeError` on comparing `None` with a number)
    are modelled with `Option`: `none` is the raised exception.
-/

abbrev Str := List Char

/-- Python `str.isspace`-class characters, the regex class `\s` (ASCII part). -/
def pyIsSpace (c : Char) : Bool :=
  c = ' ' || c = '\t' || c = '\n' || c = '\r' || c = '\x0b' || c = '\x0c'

/-- The regex class `\w` (ASCII model: letters, digits, underscore). -/
def isWordChar (c : Char) : Bool := c.isAlphanum || c = '_'

/-- Numeric value of a digit character, Python `int(c)` for `c` in `'0'..'9'`. -/
def digitVal (c : Char) : Nat := c.toNat - 48

/-- Decimal digits of a natural number, most significant first. -/
def natStr (n : Nat) : Str := Nat.toDigits 10 n

def intStr (i : Int) : Str := if i < 0 then '-' :: natStr i.natAbs else natStr i.natAbs

def natOfDigits (l : Str) : Nat := l.foldl (fun a c => a * 10 + digitVal c) 0

/-- Exact-rational model of a Python `float`.  `den` is positive for every
value built by the embedded code; universal theorems carry that bound as a
hypothesis. -/
structure PyNum where
  num : Int
  den : Nat
deriving DecidableEq

def pnOfInt (i : Int) : PyNum := ⟨i, 1⟩

def pnLt (a b : PyNum) : Bool := a.num * b.den < b.num * a.den

def pnLe (a b : PyNum) : Bool := a.num * b.den ≤ b.num * a.den

def pnMul (a b : PyNum) : PyNum := ⟨a.num * b.num, a.den * b.den⟩

def pnAdd (a b : PyNum) : PyNum := ⟨a.num * b.den + b.num * a.den, a.den * b.den⟩

def pnSub (a b : PyNum) : PyNum := ⟨a.num * b.den - b.num * a.den, a.den * b.den⟩

/-- Mathematical floor of a `PyNum` (Euclidean division floors for a
positive denominator). -/
def pnFloor (a : PyNum) : Int := a.num / (a.den : Int)

/-- Python `int(x)` on a float: truncation toward zero. -/
def pyInt (a : PyNum) : Int :=
  if a.num < 0 then -((-a.num) / (a.den : Int)) else a.num / (a.den : Int)

/-- Python `max(a, b)`: returns `b` only when `b > a` (first argument wins ties). -/
def pnMax (a b : PyNum) : PyNum := if pnLt a b then b else a

/-- Round half to even to an integer, the rounding of Python `round` and of
the `format` mini-language. -/
def roundHalfEven (a : PyNum) : Int :=
  let f := pnFloor a
  let frac := pnSub a (pnOfInt f)
  if pnLt frac ⟨1, 2⟩ then f
  else if pnLt ⟨1, 2⟩ frac then f + 1
  else if f % 2 = 0 then f else f + 1

/-- Python `round(x, 2)` (value semantics; exact since all our inputs are
exactly representable). -/
def pyRound2 (a : PyNum) : PyNum := ⟨roundHalfEven (pnMul a ⟨100, 1⟩), 100⟩

/-- Python format `:.0f`. -/
def fmtF0 (a : PyNum) : Str := intStr (roundHalfEven a)

def pad2 (n : Nat) : Str := if n < 10 then '0' :: natStr n else natStr n

def pad4 (n : Nat) : Str :=
  if n < 10 then '0' :: '0' :: '0' :: natStr n
  else if n < 100 then '0' :: '0' :: natStr n
  else if n < 1000 then '0' :: natStr n
  else natStr n

/-- Python format `:.2f`. -/
def fmtF2 (a : PyNum) : Str :=
  let r := roundHalfEven (pnMul a ⟨100, 1⟩)
  (if r < 0 then ['-'] else []) ++ natStr (r.natAbs / 100) ++ ['.'] ++ pad2 (r.natAbs % 100)

def commaRev : Str → Str
  | a :: b :: c :: d :: rest => a :: b :: c :: ',' :: commaRev (d :: rest)
  | l => l

/-- Python format `:,.2f` (thousands separators). -/
def fmtComma2 (a : PyNum) : Str :=
  let r := roundHalfEven (pnMul a ⟨100, 1⟩)
  (if r < 0 then ['-'] else []) ++ (commaRev (natStr (r.natAbs / 100)).reverse).reverse
    ++ ['.'] ++ pad2 (r.natAbs % 100)

/-- Python `str.lower`.  `Char.toLower` only folds ASCII letters; every error
message produced by the embedded validator contains only ASCII upper-case
letters, so this agrees with Python on all strings the code builds. -/
def pyLower (s : Str) : Str := s.map Char.toLower

/-- Python `needle in hay` on strings. -/
def containsSub (n h : Str) : Bool := h.tails.any (fun t => n.isPrefixOf t)

/-! ## validator.py -/

/-- Python `re.sub(r'[^\d]', '', s)` (ASCII `\d` model). -/
def soDigitos (s : Str) : Str := s.filter Char.isDigit

def somaMod10 : Str → Nat → Nat
  | [], _ => 0
  | c :: resto, mult =>
    let r := digitVal c * mult
    (if r > 9 then r / 10 + r % 10 else r) + somaMod10 resto (if mult = 2 then 1 else 2)

/-- Embeds `calcular_dv_modulo10` (validator.py): right-to-left weighted sum with
alternating multipliers 2,1; two-digit products are replaced by their digit
sum; returns the check digit as a character (Python returns `str(dv)`). -/
def calcular_dv_modulo10 (sequencia : Str) : Char :=
  let soma := somaMod10 sequencia.reverse 2
  let resto := soma % 10
  Char.ofNat (48 + (if resto = 0 then 0 else 10 - resto))

def somaMod11 : Str → Nat → Nat
  | [], _ => 0
  | c :: resto, mult =>
    digitVal c * mult + somaMod11 resto (if mult + 1 > 9 then 2 else mult + 1)

/-- Embeds `calcular_dv_modulo11` (validator.py): multipliers cycle 2..9 from the
right; `dv = 11 - soma % 11`, collapsing 0, 10 and 11 to 1. -/
def calcular_dv_modulo11 (sequencia : Str) : Char :=
  let resto := somaMod11 sequencia.reverse 2 % 11
  let dv := 11 - resto
  Char.ofNat (48 + (if dv = 0 ∨ dv = 10 ∨ dv = 11 then 1 else dv))

structure ValidationResult where
  valido : Bool
  erros : List Str
deriving DecidableEq

structure ValidationFull where
  valido : Bool
  erros : List Str
  detalhes : List (Str × ValidationResult)
deriving DecidableEq

def msgDV1 (esp enc : Char) : Str :=
  "DV1 inválido (esperado: ".data ++ ([esp] ++ (", encontrado: ".data ++ ([enc] ++ ")".data)))

def msgDV2 (esp enc : Char) : Str :=
  "DV2 inválido (esperado: ".data ++ ([esp] ++ (", encontrado: ".data ++ ([enc] ++ ")".data)))

def msgDV3 (esp enc : Char) : Str :=
  "DV3 inválido (esperado: ".data ++ ([esp] ++ (", encontrado: ".data ++ ([enc] ++ ")".data)))

def msgLinha47 (n : Nat) : Str :=
  "Linha digitável deve ter 47 dígitos (tem ".data ++ (natStr n ++ ")".data)

def msgLinhaNE : Str := "Linha digitável não encontrada".data

def msgCB44 (n : Nat) : Str :=
  "Código de barras deve ter 44 dígitos (tem ".data ++ (natStr n ++ ")".data)

def msgDVCB (esp enc : Char) : Str :=
  "DV do código de barras inválido (esperado: ".data
    ++ ([esp] ++ (", encontrado: ".data ++ ([enc] ++ ")".data)))

def msgValorNE : Str := "Valor não encontrado".data

def msgValorZero : Str := "Valor deve ser maior que zero".data

def msgValorMax : Str := "Valor excede limite máximo (R$ 9.999.999,99)".data

def msgVencNE : Str := "Vencimento não encontrado".data

def msgVencAntigo (s : Str) : Str :=
  "Boleto com vencimento muito antigo (".data ++ (s ++ ")".data)

def msgVencDistante (s : Str) : Str :=
  "Boleto com vencimento muito distante (".data ++ (s ++ ")".data)

/-- The `except` branch of `validar_vencimento` interpolates the CPython
exception text; that text is interpreter-specific, so it is modelled by the
representative message CPython emits for a format mismatch. -/
def msgVencInvalida : Str :=
  "Data de vencimento inválida: time data does not match format".data

def msgCnpj14 : Str := "CNPJ deve ter 14 dígitos".data

def msgCnpjRep : Str := "CNPJ inválido (sequência repetida)".data

def msgCnpjDV1 : Str := "Primeiro dígito verificador do CNPJ inválido".data

def msgCnpjDV2 : Str := "Segundo dígito verificador do CNPJ inválido".data

def msgBancoNE : Str := "Código do banco não encontrado".data

def msgBancoDesconhecido (c : Str) : Str := "Código de banco desconhecido: ".data ++ c

/-- The check-digit comparisons of `validar_linha_digitavel` over the
47-digit string: fields `[0:10)`, `[10:21)`, `[21:32)`, each `prefix + DV`,
errors concatenated in block order. -/
def linhaDVErros (digitos : Str) : List Str :=
  let campo1 := digitos.take 10
  let campo2 := (digitos.drop 10).take 11
  let campo3 := (digitos.drop 21).take 11
  let dv1i := campo1.getD 9 ' '
  let dv1c := calcular_dv_modulo10 (campo1.take 9)
  let dv2i := campo2.getD 10 ' '
  let dv2c := calcular_dv_modulo10 (campo2.take 10)
  let dv3i := campo3.getD 10 ' '
  let dv3c := calcular_dv_modulo10 (campo3.take 10)
  (if dv1i ≠ dv1c then [msgDV1 dv1c dv1i] else []) ++
  (if dv2i ≠ dv2c then [msgDV2 dv2c dv2i] else []) ++
  (if dv3i ≠ dv3c then [msgDV3 dv3c dv3i] else [])

/-- Embeds `validar_linha_digitavel` (validator.py). -/
def validar_linha_digitavel (linha : Str) : ValidationResult :=
  let digitos := soDigitos linha
  if digitos.length ≠ 47 then ⟨false, [msgLinha47 digitos.length]⟩
  else ⟨(linhaDVErros digitos).length == 0, linhaDVErros digitos⟩

/-- Embeds `validar_codigo_barras` (validator.py). -/
def validar_codigo_barras (codigo : Str) : ValidationResult :=
  let digitos := soDigitos codigo
  if digitos.length ≠ 44 then ⟨false, [msgCB44 digitos.length]⟩
  else
    let dvi := digitos.getD 4 ' '
    let codigo_sem_dv := digitos.take 4 ++ digitos.drop 5
    let dvc := calcular_dv_modulo11 codigo_sem_dv
    let erros := if dvi ≠ dvc then [msgDVCB dvc dvi] else []
    ⟨erros.length == 0, erros⟩

/-- Embeds `validar_valor` (validator.py). -/
def validar_valor (valor : PyNum) : ValidationResult :=
  let e1 := if pnLe valor ⟨0, 1⟩ then [msgValorZero] else []
  let e2 := if pnLt ⟨999999999, 100⟩ valor then [msgValorMax] else []
  ⟨(e1 ++ e2).length == 0, e1 ++ e2⟩

def isLeap (y : Nat) : Bool := y % 4 = 0 && (y % 100 ≠ 0 || y % 400 = 0)

def daysInMonth (m y : Nat) : Nat :=
  if m = 2 then (if isLeap y then 29 else 28)
  else if m = 4 ∨ m = 6 ∨ m = 9 ∨ m = 11 then 30
  else 31

def diasAntesMes (m y : Nat) : Nat :=
  [0, 31, 59, 90, 120, 151, 181, 212, 243, 273, 304, 334].getD (m - 1) 0
    + (if 2 < m then (if isLeap y then 1 else 0) else 0)

/-- Embeds `datetime.date.toordinal`: day number in the proleptic Gregorian
calendar with 0001-01-01 as day 1. -/
def toordinal (y m d : Nat) : Nat :=
  365 * (y - 1) + (y - 1) / 4 + (y - 1) / 400 - (y - 1) / 100 + diasAntesMes m y + d

/-- First `some` produced by `f` over the list, in order (regex alternative
backtracking). -/
def firstSome {α β : Type} (f : α → Option β) : List α → Option β
  | [] => none
  | a :: t =>
    match f a with
    | some b => some b
    | none => firstSome f t

/-- Exactly `n` leading `\d` characters. -/
def takeDigits : Nat → Str → Option (Str × Str)
  | 0, l => some ([], l)
  | _ + 1, [] => none
  | n + 1, c :: t =>
    if c.isDigit then (takeDigits n t).map (fun g => (c :: g.1, g.2)) else none

/-- CPython strptime `%d` alternatives `3[01]|[12]\d|0[1-9]|[1-9]`, in regex
order, each with the remaining input. -/
def dayAlts (l : Str) : List (Nat × Str) :=
  (match l with
   | '3' :: c :: r => if c = '0' ∨ c = '1' then [(30 + digitVal c, r)] else []
   | _ => []) ++
  (match l with
   | a :: c :: r =>
     if (a = '1' ∨ a = '2') ∧ c.isDigit then [(digitVal a * 10 + digitVal c, r)] else []
   | _ => []) ++
  (match l with
   | '0' :: c :: r => if c.isDigit ∧ c ≠ '0' then [(digitVal c, r)] else []
   | _ => []) ++
  (match l with
   | c :: r => if c.isDigit ∧ c ≠ '0' then [(digitVal c, r)] else []
   | _ => [])

/-- CPython strptime `%m` alternatives `1[0-2]|0[1-9]|[1-9]`. -/
def monthAlts (l : Str) : List (Nat × Str) :=
  (match l with
   | '1' :: c :: r => if c = '0' ∨ c = '1' ∨ c = '2' then [(10 + digitVal c, r)] else []
   | _ => []) ++
  (match l with
   | '0' :: c :: r => if c.isDigit ∧ c ≠ '0' then [(digitVal c, r)] else []
   | _ => []) ++
  (match l with
   | c :: r => if c.isDigit ∧ c ≠ '0' then [(digitVal c, r)] else []
   | _ => [])

/-- Syntactic part of `datetime.strptime(s, '%d/%m/%Y')`: the generated
regex must consume the whole string. -/
def parseDMYSyntax (s : Str) : Option (Nat × Nat × Nat) :=
  firstSome (fun dr =>
    match dr.2 with
    | '/' :: r2 =>
      firstSome (fun mr =>
        match mr.2 with
        | '/' :: r4 =>
          match takeDigits 4 r4 with
          | some (ys, []) => some (dr.1, mr.1, natOfDigits ys)
          | _ => none
        | _ => none) (monthAlts r2)
    | _ => none) (dayAlts s)

/-- Embeds `datetime.strptime(s, '%d/%m/%Y')`: syntax, then the calendar checks the
`datetime` constructor performs (`MINYEAR = 1`, day within month). -/
def strptime_dmy (s : Str) : Option (Nat × Nat × Nat) :=
  match parseDMYSyntax s with
  | some (d, m, y) => if 1 ≤ y ∧ d ≤ daysInMonth m y then some (d, m, y) else none
  | none => none

/-- Syntactic part of `datetime.strptime(s, '%d/%m/%y')` with the century
rule: two-digit years 0-68 are 2000-2068, 69-99 are 1969-1999. -/
def parseDMY2Syntax (s : Str) : Option (Nat × Nat × Nat) :=
  firstSome (fun dr =>
    match dr.2 with
    | '/' :: r2 =>
      firstSome (fun mr =>
        match mr.2 with
        | '/' :: r4 =>
          match takeDigits 2 r4 with
          | some (ys, []) =>
            let yy := natOfDigits ys
            some (dr.1, mr.1, if yy ≤ 68 then 2000 + yy else 1900 + yy)
          | _ => none
        | _ => none) (monthAlts r2)
    | _ => none) (dayAlts s)

def strptime_dmy2 (s : Str) : Option (Nat × Nat × Nat) :=
  match parseDMY2Syntax s with
  | some (d, m, y) => if 1 ≤ y ∧ d ≤ daysInMonth m y then some (d, m, y) else none
  | none => none

/-- Embeds `validar_vencimento` (validator.py).  `hoje` is the wall-clock seam:
the ordinal of the current date, taken at midnight, so that
`(hoje - vencimento).days` and `(vencimento - hoje).days` are exact ordinal
differences. -/
def validar_vencimento (venc : Str) (hoje : Int) : ValidationResult :=
  match strptime_dmy venc with
  | none => ⟨false, [msgVencInvalida]⟩
  | some (d, m, y) =>
    let vencOrd : Int := toordinal y m d
    let e1 := if hoje - vencOrd > 5 * 365 then [msgVencAntigo venc] else []
    let e2 := if vencOrd - hoje > 2 * 365 then [msgVencDistante venc] else []
    ⟨(e1 ++ e2).length == 0, e1 ++ e2⟩

def pesoCnpj1 : List Nat := [5, 4, 3, 2, 9, 8, 7, 6, 5, 4, 3, 2]

def pesoCnpj2 : List Nat := [6, 5, 4, 3, 2, 9, 8, 7, 6, 5, 4, 3, 2]

/-- The weighted-sum loops of `validar_cnpj`: `soma += int(d[i]) * peso[i]`
over the weight list. -/
def cnpjSoma : Str → List Nat → Nat
  | c :: cs, w :: ws => digitVal c * w + cnpjSoma cs ws
  | _, _ => 0

def cnpjDV (soma : Nat) : Nat :=
  let resto := soma % 11
  if resto < 2 then 0 else 11 - resto

/-- Embeds `validar_cnpj` (validator.py). -/
def validar_cnpj (cnpj : Str) : ValidationResult :=
  let ds := soDigitos cnpj
  if ds.length ≠ 14 then ⟨false, [msgCnpj14]⟩
  else if ds = List.replicate 14 (ds.headD ' ') then ⟨false, [msgCnpjRep]⟩
  else
    let dv1 := cnpjDV (cnpjSoma ds pesoCnpj1)
    let dv2 := cnpjDV (cnpjSoma ds pesoCnpj2)
    let e1 := if digitVal (ds.getD 12 ' ') ≠ dv1 then [msgCnpjDV1] else []
    let e2 := if digitVal (ds.getD 13 ' ') ≠ dv2 then [msgCnpjDV2] else []
    ⟨(e1 ++ e2).length == 0, e1 ++ e2⟩

def bancosValidos : List Str :=
  ["001".data, "033".data, "104".data, "237".data, "341".data, "748".data, "756".data,
   "077".data, "260".data, "290".data, "403".data, "422".data, "140".data, "197".data]

/-- Embeds `validar_codigo_banco` (validator.py). -/
def validar_codigo_banco (codigo : Str) : ValidationResult :=
  let erros := if bancosValidos.contains codigo then [] else [msgBancoDesconhecido codigo]
  ⟨erros.length == 0, erros⟩

/-- The parser's output record (`parse_dados_boleto` always returns these
nine keys, each possibly `None`). -/
structure DadosBoleto where
  codigo_barras : Option Str
  linha_digitavel : Option Str
  valor : Option PyNum
  vencimento : Option Str
  beneficiario_nome : Option Str
  beneficiario_cnpj : Option Str
  codigo_banco : Option Str
  banco_nome : Option Str
  agencia : Option Str
deriving DecidableEq

/-- Python truthiness of an optional string (`None` and `""` are falsy). -/
def pyTruthyStr : Option Str → Bool
  | none => false
  | some s => !s.isEmpty

/-- Python truthiness of an optional float (`None` and `0.0` are falsy). -/
def pyTruthyNum : Option PyNum → Bool
  | none => false
  | some v => !(v.num == 0)

/-- Embeds `validar_boleto_febraban` (validator.py): every applicable sub-check runs
and all errors are concatenated in check order; mandatory fields that are
falsy contribute a missing-field error; `codigo_barras` and `beneficiario_cnpj`
are checked only when truthy. -/
def validar_boleto_febraban (dados : DadosBoleto) (hoje : Int) : ValidationFull :=
  let rLinha := validar_linha_digitavel (dados.linha_digitavel.getD [])
  let eLinha := if pyTruthyStr dados.linha_digitavel then
      (if rLinha.valido then [] else rLinha.erros) else [msgLinhaNE]
  let dLinha := if pyTruthyStr dados.linha_digitavel then
      [("linha_digitavel".data, rLinha)] else []
  let rCB := validar_codigo_barras (dados.codigo_barras.getD [])
  let eCB := if pyTruthyStr dados.codigo_barras then
      (if rCB.valido then [] else rCB.erros) else []
  let dCB := if pyTruthyStr dados.codigo_barras then [("codigo_barras".data, rCB)] else []
  let rValor := validar_valor (dados.valor.getD ⟨0, 1⟩)
  let eValor := if pyTruthyNum dados.valor then
      (if rValor.valido then [] else rValor.erros) else [msgValorNE]
  let dValor := if pyTruthyNum dados.valor then [("valor".data, rValor)] else []
  let rVenc := validar_vencimento (dados.vencimento.getD []) hoje
  let eVenc := if pyTruthyStr dados.vencimento then
      (if rVenc.valido then [] else rVenc.erros) else [msgVencNE]
  let dVenc := if pyTruthyStr dados.vencimento then [("vencimento".data, rVenc)] else []
  let rCnpj := validar_cnpj (dados.beneficiario_cnpj.getD [])
  let eCnpj := if pyTruthyStr dados.beneficiario_cnpj then
      (if rCnpj.valido then [] else rCnpj.erros) else []
  let dCnpj := if pyTruthyStr dados.beneficiario_cnpj then [("cnpj".data, rCnpj)] else []
  let rBanco := validar_codigo_banco (dados.codigo_banco.getD [])
  let eBanco := if pyTruthyStr dados.codigo_banco then
      (if rBanco.valido then [] else rBanco.erros) else [msgBancoNE]
  let dBanco := if pyTruthyStr dados.codigo_banco then [("banco".data, rBanco)] else []
  let erros := eLinha ++ eCB ++ eValor ++ eVenc ++ eCnpj ++ eBanco
  ⟨erros.length == 0, erros, dLinha ++ dCB ++ dValor ++ dVenc ++ dCnpj ++ dBanco⟩

/-! ## parser.py

The regular-expression searches are modelled as leftmost scanners: `searchB`
tries the pattern at every start position left to right, threading the
previous character for word boundaries, exactly as `re.search`. -/

def searchB {α : Type} (f : Option Char → Str → Option α) :
    Option Char → Str → Option α
  | prev, l =>
    match f prev l with
    | some r => some r
    | none =>
      match l with
      | [] => none
      | c :: t => searchB f (some c) t

/-- Greedy optional character class `X?`.  Used only where the class is
disjoint from the characters the rest of the pattern can start with, so
greedy matching never needs to backtrack. -/
def optClass (p : Char → Bool) : Str → Str
  | [] => []
  | c :: t => if p c then t else c :: t

/-- Like `optClass` but also returns the consumed characters (for captures
that include the separators). -/
def optClassKeep (p : Char → Bool) : Str → (Str × Str)
  | [] => ([], [])
  | c :: t => if p c then ([c], t) else ([], c :: t)

/-- Greedy `X+` for a class disjoint from what follows. -/
def plusClass (p : Char → Bool) : Str → Option Str
  | [] => none
  | c :: t => if p c then some (t.dropWhile p) else none

/-- Case-insensitive literal (pattern given in lower case), for
`re.IGNORECASE` patterns. -/
def matchCI : Str → Str → Option Str
  | [], l => some l
  | _ :: _, [] => none
  | a :: pat, c :: t => if Char.toLower c = a then matchCI pat t else none

def isSepDotSpace (c : Char) : Bool := c = '.' || pyIsSpace c

/-- The formatted linha-digitável pattern of `extrair_linha_digitavel`:
`(\d{5})[.\s]?(\d{5})\s?(\d{5})[.\s]?(\d{6})\s?(\d{5})[.\s]?(\d{6})\s?(\d)\s?(\d{14})`,
returning the reconstructed dotted/spaced string. -/
def matchLinhaAt (l : Str) : Option Str := do
  let (g0, r) ← takeDigits 5 l
  let r := optClass isSepDotSpace r
  let (g1, r) ← takeDigits 5 r
  let r := optClass pyIsSpace r
  let (g2, r) ← takeDigits 5 r
  let r := optClass isSepDotSpace r
  let (g3, r) ← takeDigits 6 r
  let r := optClass pyIsSpace r
  let (g4, r) ← takeDigits 5 r
  let r := optClass isSepDotSpace r
  let (g5, r) ← takeDigits 6 r
  let r := optClass pyIsSpace r
  let (g6, r) ← takeDigits 1 r
  let r := optClass pyIsSpace r
  let (g7, _) ← takeDigits 14 r
  pure (g0 ++ ['.'] ++ g1 ++ [' '] ++ g2 ++ ['.'] ++ g3 ++ [' '] ++ g4 ++ ['.'] ++ g5
    ++ [' '] ++ g6 ++ [' '] ++ g7)

/-- Pattern `\b(\d{n})\b` at the current position. -/
def matchBareDigits (n : Nat) (prev : Option Char) (l : Str) : Option Str :=
  let boundary := match prev with | none => true | some c => !isWordChar c
  if boundary then
    match takeDigits n l with
    | some (g, r) =>
      match r with
      | [] => some g
      | c :: _ => if isWordChar c then none else some g
    | none => none
  else none

/-- Formats a bare 47-digit run the way `extrair_linha_digitavel` does. -/
def format47 (d : Str) : Str :=
  d.take 5 ++ ['.'] ++ (d.drop 5).take 5 ++ [' '] ++ (d.drop 10).take 5 ++ ['.']
    ++ (d.drop 15).take 6 ++ [' '] ++ (d.drop 21).take 5 ++ ['.'] ++ (d.drop 26).take 6
    ++ [' '] ++ [d.getD 32 ' '] ++ [' '] ++ (d.drop 33).take 14

/-- Embeds `extrair_linha_digitavel` (parser.py). -/
def extrair_linha_digitavel (texto : Str) : Option Str :=
  let texto := texto.map (fun c => if c = '\n' then ' ' else c)
  match searchB (fun _ l => matchLinhaAt l) none texto with
  | some linha => some linha
  | none =>
    match searchB (matchBareDigits 47) none texto with
    | some digitos => some (format47 digitos)
    | none => none

/-- Embeds `extrair_codigo_barras` (parser.py): `\b(\d{44})\b`. -/
def extrair_codigo_barras (texto : Str) : Option Str :=
  searchB (matchBareDigits 44) none texto

def isAmtSep (c : Char) : Bool := c = '.' || c = ','

/-- Pattern `(?:[.,]\d{3})*[.,]\d{2}` with the greedy-first backtracking of the
regex engine: each star iteration needs a separator plus three digits; when
the continuation fails, the final separator-plus-two-digits alternative is
taken instead. -/
def restAmount : Str → Option (Str × Str)
  | s :: a :: b :: rest0 =>
    if isAmtSep s && a.isDigit && b.isDigit then
      match rest0 with
      | c :: rest =>
        if c.isDigit then
          match restAmount rest with
          | some (cap, r) => some (s :: a :: b :: c :: cap, r)
          | none => some ([s, a, b], c :: rest)
        else some ([s, a, b], c :: rest)
      | [] => some ([s, a, b], [])
    else none
  | _ => none

/-- Pattern `\d{1,3}(?:[.,]\d{3})*[.,]\d{2}`: the leading digit count is greedy,
3 then 2 then 1. -/
def matchAmountNum (l : Str) : Option (Str × Str) :=
  match (takeDigits 3 l).bind (fun g => (restAmount g.2).map (fun c => (g.1 ++ c.1, c.2))) with
  | some x => some x
  | none =>
    match (takeDigits 2 l).bind (fun g => (restAmount g.2).map (fun c => (g.1 ++ c.1, c.2))) with
    | some x => some x
    | none => (takeDigits 1 l).bind (fun g => (restAmount g.2).map (fun c => (g.1 ++ c.1, c.2)))

/-- First valor pattern `R\$?\s?(...)` (IGNORECASE). -/
def matchValorP1 : Str → Option Str
  | c :: t =>
    if c = 'R' || c = 'r' then
      let t := optClass (fun c => c = '$') t
      let t := optClass pyIsSpace t
      (matchAmountNum t).map (fun g => g.1)
    else none
  | [] => none

/-- Second valor pattern `Valor[:\s]+R\$?\s?(...)` (IGNORECASE). -/
def matchValorP2 (l : Str) : Option Str := do
  let r ← matchCI "valor".data l
  let r ← plusClass (fun c => c = ':' || pyIsSpace c) r
  match r with
  | c :: t =>
    if c = 'R' || c = 'r' then
      let t := optClass (fun c => c = '$') t
      let t := optClass pyIsSpace t
      (matchAmountNum t).map (fun g => g.1)
    else none
  | [] => none

/-- Python `float()` on the captured amount after `replace('.', '').replace(',', '.')`:
digits with at most one decimal point. -/
def pyFloatOfStr (s : Str) : Option PyNum :=
  if s.all (fun c => c.isDigit || c = '.') && s.any Char.isDigit
      && (s.filter (fun c => c = '.')).length ≤ 1 then
    let intPart := s.takeWhile (fun c => c ≠ '.')
    match s.dropWhile (fun c => c ≠ '.') with
    | [] => some ⟨natOfDigits intPart, 1⟩
    | _ :: frac =>
      some ⟨(natOfDigits intPart) * 10 ^ frac.length + natOfDigits frac, 10 ^ frac.length⟩
  else none

def tryValorParse (cap : Str) : Option PyNum :=
  pyFloatOfStr ((cap.filter (fun c => c ≠ '.')).map (fun c => if c = ',' then '.' else c))

def extrair_valor3 (texto : Str) : Option PyNum :=
  match searchB (fun _ l => (matchAmountNum l).map (fun g => g.1)) none texto with
  | some cap => tryValorParse cap
  | none => none

def extrair_valor2 (texto : Str) : Option PyNum :=
  match searchB (fun _ l => matchValorP2 l) none texto with
  | some cap =>
    match tryValorParse cap with
    | some v => some v
    | none => extrair_valor3 texto
  | none => extrair_valor3 texto

/-- Embeds `extrair_valor` (parser.py): the three patterns in order; a capture that
`float()` rejects moves on to the next pattern. -/
def extrair_valor (texto : Str) : Option PyNum :=
  match searchB (fun _ l => matchValorP1 l) none texto with
  | some cap =>
    match tryValorParse cap with
    | some v => some v
    | none => extrair_valor2 texto
  | none => extrair_valor2 texto

/-- Pattern `(\d{2}/\d{2}/\d{4})`. -/
def matchDate224 (l : Str) : Option Str := do
  let (d, r) ← takeDigits 2 l
  match r with
  | '/' :: r2 => do
    let (m, r3) ← takeDigits 2 r2
    match r3 with
    | '/' :: r4 => do
      let (y, _) ← takeDigits 4 r4
      pure (d ++ ['/'] ++ m ++ ['/'] ++ y)
    | _ => none
  | _ => none

/-- Pattern `(\d{2}/\d{2}/\d{2})`. -/
def matchDate222 (l : Str) : Option Str := do
  let (d, r) ← takeDigits 2 l
  match r with
  | '/' :: r2 => do
    let (m, r3) ← takeDigits 2 r2
    match r3 with
    | '/' :: r4 => do
      let (y, _) ← takeDigits 2 r4
      pure (d ++ ['/'] ++ m ++ ['/'] ++ y)
    | _ => none
  | _ => none

/-- Pattern `Vencimento[:\s]+(\d{2}/\d{2}/\d{4})` (IGNORECASE). -/
def matchVencP0 (l : Str) : Option Str := do
  let r ← matchCI "vencimento".data l
  let r ← plusClass (fun c => c = ':' || pyIsSpace c) r
  matchDate224 r

def extrair_vencimento3 (texto : Str) : Option Str :=
  match searchB (fun _ l => matchDate222 l) none texto with
  | some cap =>
    match strptime_dmy2 cap with
    | some (d, m, y) => some (pad2 d ++ ['/'] ++ pad2 m ++ ['/'] ++ pad4 y)
    | none => none
  | none => none

def extrair_vencimento2 (texto : Str) : Option Str :=
  match searchB (fun _ l => matchDate224 l) none texto with
  | some cap =>
    match strptime_dmy cap with
    | some _ => some cap
    | none => extrair_vencimento3 texto
  | none => extrair_vencimento3 texto

/-- Embeds `extrair_vencimento` (parser.py): labelled then bare `dd/mm/yyyy`, then
bare `dd/mm/yy` re-rendered through `strftime('%d/%m/%Y')`; captures that
`strptime` rejects fall through to the next pattern. -/
def extrair_vencimento (texto : Str) : Option Str :=
  match searchB (fun _ l => matchVencP0 l) none texto with
  | some cap =>
    match strptime_dmy cap with
    | some _ => some cap
    | none => extrair_vencimento2 texto
  | none => extrair_vencimento2 texto

/-- Pattern `(\d{2}[.\s]?\d{3}[.\s]?\d{3}[/\s]?\d{4}[-\s]?\d{2})`, captured with its
separators. -/
def matchCnpjP1 (l : Str) : Option Str := do
  let (g1, r) ← takeDigits 2 l
  let (s1, r) := optClassKeep isSepDotSpace r
  let (g2, r) ← takeDigits 3 r
  let (s2, r) := optClassKeep isSepDotSpace r
  let (g3, r) ← takeDigits 3 r
  let (s3, r) := optClassKeep (fun c => c = '/' || pyIsSpace c) r
  let (g4, r) ← takeDigits 4 r
  let (s4, r) := optClassKeep (fun c => c = '-' || pyIsSpace c) r
  let (g5, _) ← takeDigits 2 r
  pure (g1 ++ s1 ++ g2 ++ s2 ++ g3 ++ s3 ++ g4 ++ s4 ++ g5)

def formatCnpj (c : Str) : Str :=
  c.take 2 ++ ['.'] ++ (c.drop 2).take 3 ++ ['.'] ++ (c.drop 5).take 3 ++ ['/']
    ++ (c.drop 8).take 4 ++ ['-'] ++ (c.drop 12).take 2

def extrair_cnpj2 (texto : Str) : Option Str :=
  match searchB (matchBareDigits 14) none texto with
  | some cap =>
    let cd := soDigitos cap
    if cd.length = 14 then some (formatCnpj cd) else none
  | none => none

/-- Embeds `extrair_cnpj` (parser.py). -/
def extrair_cnpj (texto : Str) : Option Str :=
  match searchB (fun _ l => matchCnpjP1 l) none texto with
  | some cap =>
    let cd := soDigitos cap
    if cd.length = 14 then some (formatCnpj cd) else extrair_cnpj2 texto
  | none => extrair_cnpj2 texto

def bancosNomes : List (Str × Str) :=
  [("001".data, "Banco do Brasil".data),
   ("033".data, "Santander".data),
   ("104".data, "Caixa Econômica Federal".data),
   ("237".data, "Bradesco".data),
   ("341".data, "Itaú".data),
   ("748".data, "Sicredi".data),
   ("756".data, "Bancoob".data),
   ("077".data, "Banco Inter".data),
   ("260".data, "Nubank".data),
   ("290".data, "PagSeguro".data),
   ("403".data, "Cora".data)]

/-- Embeds `identificar_banco` (parser.py): `bancos.get(codigo_banco, f"Banco
{codigo_banco}")`; a `None` code is not a key, and the f-string renders it
as the text `None`. -/
def identificar_banco (codigo_banco : Option Str) : Str :=
  match codigo_banco with
  | some s =>
    match bancosNomes.find? (fun p => p.1 == s) with
    | some p => p.2
    | none => "Banco ".data ++ s
  | none => "Banco None".data

/-- Embeds `parse_dados_boleto` (parser.py). -/
def parse_dados_boleto (texto_ocr : Str) : DadosBoleto :=
  let linha := extrair_linha_digitavel texto_ocr
  let linhaField := if pyTruthyStr linha then linha else none
  let codBanco := if pyTruthyStr linha then some ((linha.getD []).take 3) else none
  let cb := extrair_codigo_barras texto_ocr
  let cbField := if pyTruthyStr cb then cb else none
  let valor := extrair_valor texto_ocr
  let valorField := if pyTruthyNum valor then valor else none
  let venc := extrair_vencimento texto_ocr
  let vencField := if pyTruthyStr venc then venc else none
  let cnpj := extrair_cnpj texto_ocr
  let cnpjField := if pyTruthyStr cnpj then cnpj else none
  let banco := identificar_banco codBanco
  let bancoField := if !banco.isEmpty then some banco else none
  { codigo_barras := cbField
    linha_digitavel := linhaField
    valor := valorField
    vencimento := vencField
    beneficiario_nome := none
    beneficiario_cnpj := cnpjField
    codigo_banco := codBanco
    banco_nome := bancoField
    agencia := none }

/-! ## model.py -/

structure Features where
  banco : Int
  codigoBanco : Int
  agencia : Int
  valor : PyNum
  linha_codBanco : Int
  linha_moeda : Int
  linha_valor : Int
deriving DecidableEq

/-- Python `int(s)` on a string: optional surrounding whitespace, optional
sign, at least one digit; anything else raises. -/
def pyIntOfStr (s : Str) : Option Int :=
  let t := ((s.dropWhile pyIsSpace).reverse.dropWhile pyIsSpace).reverse
  match t with
  | '-' :: ds =>
    if !ds.isEmpty && ds.all Char.isDigit then some (-(natOfDigits ds : Int)) else none
  | '+' :: ds =>
    if !ds.isEmpty && ds.all Char.isDigit then some (natOfDigits ds : Int) else none
  | ds => if !ds.isEmpty && ds.all Char.isDigit then some (natOfDigits ds : Int) else none

/-- Embeds `preparar_features` (model.py); `none` models the propagated exception
when an `int()` conversion fails. -/
def preparar_features (dados : DadosBoleto) : Option Features := do
  let linha := dados.linha_digitavel.getD []
  let linha_digitos := linha.filter (fun c => !(c = '.' || c = ' '))
  let linha_codBanco ←
    if linha_digitos.length ≥ 3 then pyIntOfStr (linha_digitos.take 3) else some 0
  let linha_moeda ←
    if linha_digitos.length ≥ 4 then pyIntOfStr [linha_digitos.getD 3 ' '] else some 0
  let linha_valor ←
    if linha_digitos.length ≥ 47 then pyIntOfStr ((linha_digitos.drop 37).take 10) else some 0
  let codigo_banco ←
    match dados.codigo_banco with
    | none => some (0 : Int)
    | some s => pyIntOfStr s
  let valor := dados.valor.getD ⟨0, 1⟩
  let agencia :=
    match dados.agencia with
    | none => (0 : Int)
    | some s => (pyIntOfStr (s.takeWhile (fun c => c ≠ '-'))).getD 0
  pure { banco := codigo_banco
         codigoBanco := codigo_banco
         agencia := agencia
         valor := valor
         linha_codBanco := linha_codBanco
         linha_moeda := linha_moeda
         linha_valor := linha_valor }

structure PredicaoML where
  is_fraudulento : Bool
  classe_predita : Nat
  score_fraude : Int
  confianca : PyNum
  prob_falso : PyNum
  prob_verdadeiro : PyNum
  features_usadas : Features
deriving DecidableEq

/-- Embeds `predizer_fraude` (model.py).  The trained Random Forest is consumed as
an opaque scorer (spec §4.3), so its two outputs at the given feature vector
are parameters: the predicted class and the probability pair
`[P(class=0), P(class=1)]`.  Class 0 means fraudulent. -/
def predizer_fraude (classe : Nat) (p0 p1 : PyNum) (features : Features) : PredicaoML :=
  { is_fraudulento := classe == 0
    classe_predita := classe
    score_fraude := pyInt (pnMul p0 ⟨100, 1⟩)
    confianca := pnMax p0 p1
    prob_falso := p0
    prob_verdadeiro := p1
    features_usadas := features }

/-! ## tasks.py: score fusion inside processar_boleto -/

structure FraudeAnalise where
  isFraudulento : Bool
  score : Int
  confianca : PyNum
  metodos : List Str
  motivos : List Str
deriving DecidableEq

/-- The `fraudeAnalise` record written by `processar_boleto`
(tasks.py, steps 5 and the final update). -/
def fraudeAnalise (validacao : ValidationFull) (predicao : PredicaoML) : FraudeAnalise :=
  let is_fraudulento := (!validacao.valido) || predicao.is_fraudulento
  let metodos := (if !validacao.valido then ["validacao_febraban".data] else [])
    ++ (if predicao.is_fraudulento then ["modelo_ml".data] else [])
  { isFraudulento := is_fraudulento
    score := predicao.score_fraude
    confianca := predicao.confianca
    metodos := metodos
    motivos := if !validacao.valido then validacao.erros else [] }

/-! ## explainer.py -/

structure Razao where
  gravidade : Str
  categoria : Str
  categoria_nome : Str
  cor : Str
  titulo : Str
  descricao_simples : Str
  descricao_avancada : Str
  impacto : Int
  fonte : Str
deriving DecidableEq

structure Recomendacao where
  nivel_risco : Str
  cor : Str
  acao_principal : Str
  mensagem : Str
  proximos_passos : List Str
deriving DecidableEq

structure ExplicacaoSimples where
  status : Str
  confianca : Str
  resumo : Str
  principal_motivo : Str
  acao_recomendada : Str
deriving DecidableEq

structure AnaliseTecnica where
  modelo_ml : Str
  score_fraude : PyNum
  confianca_percentual : PyNum
  prob_falso : PyNum
  prob_verdadeiro : PyNum
  limiar_decisao : PyNum
deriving DecidableEq

structure Metricas where
  features_analisadas : Nat
  validacoes_tecnicas : Nat
  peso_validacao : PyNum
  peso_ml : PyNum
deriving DecidableEq

/-- Since `shap_values` is `None` in the worker pipeline,
`_extrair_features_importantes` is never invoked and the feature list is
always empty. -/
structure DetalhesTecnicos where
  validacao_febraban : Bool
  erros_encontrados : List Str
  features_importantes : List Str
deriving DecidableEq

structure ExplicacaoAvancada where
  analise_tecnica : AnaliseTecnica
  metricas : Metricas
  detalhes_tecnicos : DetalhesTecnicos
deriving DecidableEq

structure ExplicacaoBundle where
  simples : ExplicacaoSimples
  avancado : ExplicacaoAvancada
  razoes : List Razao
  recomendacao : Recomendacao
  gerado_em : Str
deriving DecidableEq

/-- Embeds `_determinar_gravidade` (explainer.py). -/
def determinar_gravidade (erro : Str) : Str :=
  let el := pyLower erro
  if containsSub "inválido".data el || containsSub "incorreto".data el
      || containsSub "falha crítica".data el then "critica".data
  else if containsSub "dígito verificador".data el
      || containsSub "código de barras".data el then "alta".data
  else if containsSub "formato".data el || containsSub "incompleto".data el then "media".data
  else "baixa".data

/-- Embeds `_calcular_impacto` (explainer.py); 50 is the `dict.get` default. -/
def calcular_impacto (gravidade : Str) : Int :=
  if gravidade = "critica".data then 95
  else if gravidade = "alta".data then 80
  else if gravidade = "media".data then 60
  else if gravidade = "baixa".data then 30
  else 50

/-- Embeds `_get_cor_gravidade` (explainer.py); the `dict.get` default is medium. -/
def get_cor_gravidade (gravidade : Str) : Str :=
  if gravidade = "critica".data then "danger".data
  else if gravidade = "alta".data then "warning".data
  else if gravidade = "media".data then "medium".data
  else if gravidade = "baixa".data then "primary".data
  else "medium".data

/-- Embeds `_identificar_principal_motivo` (explainer.py). -/
def identificar_principal_motivo (validacao : ValidationFull) (predicao : PredicaoML) : Str :=
  match validacao.erros with
  | e0 :: _ =>
    let criticos := validacao.erros.filter (fun e =>
      containsSub "inválido".data (pyLower e) || containsSub "incorreto".data (pyLower e))
    match criticos with
    | c0 :: _ => "Possível irregularidade detectada: ".data ++ c0
    | [] => "Inconsistência identificada: ".data ++ e0
  | [] =>
    let score := pnOfInt predicao.score_fraude
    if pnLt ⟨8, 10⟩ score then
      "Modelo de ML identificou padrão suspeito com alta confiança".data
    else if pnLt ⟨6, 10⟩ score then
      "Modelo de ML identificou características atípicas".data
    else if pnLt score ⟨3, 10⟩ then
      "Todas as verificações sugerem autenticidade".data
    else
      "Análise inconclusiva - recomenda-se verificação manual".data

def razaoValidacao (erro : Str) : Razao :=
  let gravidade := determinar_gravidade erro
  { gravidade := gravidade
    categoria := "validacao_tecnica".data
    categoria_nome := "Validação Técnica".data
    cor := get_cor_gravidade gravidade
    titulo := "Possível Inconsistência Técnica".data
    descricao_simples := "Foi identificada uma possível irregularidade: ".data ++ erro
    descricao_avancada := "Validação FEBRABAN: ".data
      ++ (erro ++ ". Isso pode indicar adulteração ou erro na geração do boleto.".data)
    impacto := calcular_impacto gravidade
    fonte := "Validação FEBRABAN".data }

def razaoMLAlta (score_fraude : Int) : Razao :=
  { gravidade := "alta".data
    categoria := "machine_learning".data
    categoria_nome := "Análise de Padrões".data
    cor := "danger".data
    titulo := "Padrão Suspeito Identificado".data
    descricao_simples :=
      "O modelo de IA identificou características que sugerem possível fraude (confiança: ".data
        ++ (fmtF0 (pnMul (pnOfInt score_fraude) ⟨100, 1⟩) ++ "%)".data)
    descricao_avancada := "Score de fraude: ".data
      ++ (fmtF2 (pnOfInt score_fraude)
        ++ ". O modelo Random Forest, treinado com milhares de boletos reais e falsos, identificou padrões estatísticos atípicos que podem indicar falsificação.".data)
    impacto := 85
    fonte := "Machine Learning".data }

def razaoMLBaixa (score_fraude : Int) : Razao :=
  { gravidade := "baixa".data
    categoria := "machine_learning".data
    categoria_nome := "Análise de Padrões".data
    cor := "success".data
    titulo := "Padrão Aparentemente Normal".data
    descricao_simples :=
      "O modelo de IA não identificou características suspeitas significativas (confiança: ".data
        ++ (fmtF0 (pnMul (pnSub ⟨1, 1⟩ (pnOfInt score_fraude)) ⟨100, 1⟩) ++ "%)".data)
    descricao_avancada := "Score de autenticidade: ".data
      ++ (fmtF2 (pnSub ⟨1, 1⟩ (pnOfInt score_fraude))
        ++ ". As características analisadas sugerem conformidade com padrões de boletos legítimos.".data)
    impacto := 15
    fonte := "Machine Learning".data }

def razaoValorElevado (valor : PyNum) : Razao :=
  { gravidade := "media".data
    categoria := "valor".data
    categoria_nome := "Análise de Valor".data
    cor := "warning".data
    titulo := "Valor Elevado".data
    descricao_simples := "O valor do boleto é elevado (R$ ".data
      ++ (fmtComma2 valor ++ "). Recomenda-se verificação adicional.".data)
    descricao_avancada :=
      "Boletos com valores acima de R$ 10.000,00 merecem atenção extra. Em caso de fraude, o prejuízo seria significativo.".data
    impacto := 60
    fonte := "Análise de Risco".data }

def razaoGenerica : Razao :=
  { gravidade := "baixa".data
    categoria := "geral".data
    categoria_nome := "Análise Geral".data
    cor := "primary".data
    titulo := "Análise Completa Realizada".data
    descricao_simples := "Todas as verificações de segurança foram executadas.".data
    descricao_avancada :=
      "O boleto passou por validação FEBRABAN, análise de Machine Learning e verificações de padrões suspeitos.".data
    impacto := 30
    fonte := "Sistema DetectaBB".data }

/-- Embeds `_gerar_razoes_detalhadas` (explainer.py).  `none` models the
`TypeError` Python raises at `dados_extraidos.get('valor', 0) > 10000` when
the valor field holds `None` (the key is always present in the parser
output, so the `0` default is never taken). -/
def gerar_razoes_detalhadas (dados : DadosBoleto) (validacao : ValidationFull)
    (predicao : PredicaoML) : Option (List Razao) :=
  let razoesV := validacao.erros.map razaoValidacao
  let spn := pnOfInt predicao.score_fraude
  let razoesML :=
    if pnLt ⟨7, 10⟩ spn then [razaoMLAlta predicao.score_fraude]
    else if pnLt spn ⟨3, 10⟩ then [razaoMLBaixa predicao.score_fraude]
    else []
  match dados.valor with
  | none => none
  | some v =>
    let razoesValor := if pnLt ⟨10000, 1⟩ v then [razaoValorElevado v] else []
    let razoes := razoesV ++ razoesML ++ razoesValor
    some (if razoes.isEmpty then [razaoGenerica] else razoes)

set_option linter.unusedVariables false in
/-- Embeds `_gerar_recomendacao` (explainer.py). -/
def gerar_recomendacao (is_fraudulento : Bool) (confianca : PyNum)
    (score_fraude : Int) : Recomendacao :=
  if is_fraudulento then
    if pnLe ⟨85, 100⟩ confianca then
      { nivel_risco := "ALTO".data
        cor := "danger".data
        acao_principal := "NÃO PAGAR (Alta Probabilidade de Fraude)".data
        mensagem := "Este boleto apresenta FORTES indícios de falsificação. Recomendamos fortemente não efetuar o pagamento.".data
        proximos_passos :=
          ["NÃO efetue o pagamento deste boleto".data,
           "Entre em contato DIRETAMENTE com a empresa emissora pelos canais oficiais".data,
           "Reporte este possível boleto falso às autoridades competentes".data,
           "Solicite um novo boleto através de canais seguros e oficiais".data,
           "Verifique se o e-mail/site de origem é legítimo".data] }
    else if pnLe ⟨65, 100⟩ confianca then
      { nivel_risco := "MÉDIO-ALTO".data
        cor := "warning".data
        acao_principal := "VERIFICAR ANTES DE PAGAR".data
        mensagem := "Este boleto apresenta características suspeitas. É necessária verificação adicional antes do pagamento.".data
        proximos_passos :=
          ["Aguarde! Não pague ainda".data,
           "Confirme os dados com a empresa emissora pelos canais oficiais".data,
           "Verifique se os dados bancários correspondem aos oficiais".data,
           "Confirme a autenticidade do e-mail/site de origem".data,
           "Solicite nova via por canal seguro, se necessário".data] }
    else
      { nivel_risco := "MÉDIO".data
        cor := "warning".data
        acao_principal := "PROCEDER COM CAUTELA".data
        mensagem := "Algumas irregularidades foram detectadas. Recomendamos verificação antes do pagamento.".data
        proximos_passos :=
          ["Confira cuidadosamente todos os dados do boleto".data,
           "Em caso de dúvida, contate a empresa emissora".data,
           "Verifique se o valor e vencimento estão corretos".data,
           "Confirme se o banco é o esperado para este tipo de cobrança".data] }
  else
    if pnLe ⟨85, 100⟩ confianca then
      { nivel_risco := "BAIXO".data
        cor := "success".data
        acao_principal := "PODE PAGAR (Com Verificação)".data
        mensagem := "Este boleto aparenta ser autêntico. Mesmo assim, sempre confira os dados antes do pagamento.".data
        proximos_passos :=
          ["Boleto aparenta ser legítimo".data,
           "Confira os dados: valor, vencimento e beneficiário".data,
           "Verifique se o banco corresponde ao esperado".data,
           "Em caso de qualquer dúvida, contate o emissor".data,
           "Proceda com o pagamento normalmente".data] }
    else if pnLe ⟨65, 100⟩ confianca then
      { nivel_risco := "BAIXO-MÉDIO".data
        cor := "success".data
        acao_principal := "PROVÁVEL AUTENTICIDADE".data
        mensagem := "O boleto passou nas verificações básicas, mas sempre confirme os dados importantes.".data
        proximos_passos :=
          ["Verificações de segurança aprovadas".data,
           "Confira valor e vencimento".data,
           "Em caso de dúvida, confirme com o emissor".data,
           "Você pode prosseguir com o pagamento".data] }
    else
      { nivel_risco := "INCERTO".data
        cor := "medium".data
        acao_principal := "VERIFICAR MANUALMENTE".data
        mensagem := "Não foi possível determinar com certeza. Recomendamos verificação manual cuidadosa.".data
        proximos_passos :=
          ["Analise cuidadosamente todos os dados".data,
           "Confirme a autenticidade com o emissor".data,
           "Verifique os dados bancários".data,
           "Proceda somente após confirmação".data] }

/-- Embeds `gerar_explicacao_humanizada` (explainer.py), with `shap_values` and
`feature_names` at their `None` defaults as in the worker pipeline.
`agora` is the `datetime.now().isoformat()` seam.  `none` models the
`TypeError` raised inside `_gerar_razoes_detalhadas` for a `None` valor. -/
def gerar_explicacao_humanizada (dados : DadosBoleto) (validacao : ValidationFull)
    (predicao : PredicaoML) (agora : Str) : Option ExplicacaoBundle :=
  let is_fraudulento := predicao.is_fraudulento
  let score_fraude := predicao.score_fraude
  let confianca := predicao.confianca
  let nivel_confianca :=
    if pnLe ⟨9, 10⟩ confianca then "Muito Alta".data
    else if pnLe ⟨75, 100⟩ confianca then "Alta".data
    else if pnLe ⟨6, 10⟩ confianca then "Média".data
    else "Baixa".data
  let status := if is_fraudulento then "POSSIVELMENTE FALSO".data
    else "POSSIVELMENTE AUTÊNTICO".data
  let resumo := if is_fraudulento then
      "Este boleto apresenta características suspeitas que sugerem possível falsificação.".data
    else "Este boleto aparenta ser autêntico, mas sempre confira os dados com o emissor.".data
  let acao_recomendada := if is_fraudulento then
      "Recomendamos NÃO efetuar o pagamento sem verificação adicional".data
    else "Você pode prosseguir com cautela, mas sempre verifique os dados".data
  let simples : ExplicacaoSimples :=
    { status := status
      confianca := nivel_confianca
      resumo := resumo
      principal_motivo := identificar_principal_motivo validacao predicao
      acao_recomendada := acao_recomendada }
  let avancado : ExplicacaoAvancada :=
    { analise_tecnica :=
        { modelo_ml := "Random Forest Classifier".data
          score_fraude := pyRound2 (pnMul (pnOfInt score_fraude) ⟨100, 1⟩)
          confianca_percentual := pyRound2 (pnMul confianca ⟨100, 1⟩)
          prob_falso := predicao.prob_falso
          prob_verdadeiro := predicao.prob_verdadeiro
          limiar_decisao := ⟨5, 10⟩ }
      metricas :=
        { features_analisadas := 0
          validacoes_tecnicas := validacao.erros.length
          peso_validacao := ⟨4, 10⟩
          peso_ml := ⟨6, 10⟩ }
      detalhes_tecnicos :=
        { validacao_febraban := !validacao.valido
          erros_encontrados := validacao.erros
          features_importantes := [] } }
  match gerar_razoes_detalhadas dados validacao predicao with
  | none => none
  | some razoes =>
    some { simples := simples
           avancado := avancado
           razoes := razoes
           recomendacao := gerar_recomendacao is_fraudulento confianca score_fraude
           gerado_em := agora }

/-- The computational core of `processar_boleto` (tasks.py): OCR text in,
stored analysis out.  The Mongo updates, logging and the OCR call itself are
infrastructure; the classifier outputs and the two clock seams are
parameters.  `none` models a raised exception (job marked failed). -/
def processar_boleto (texto : Str) (hoje : Int) (classe : Nat) (p0 p1 : PyNum)
    (agora : Str) :
    Option (DadosBoleto × ValidationFull × PredicaoML × FraudeAnalise × ExplicacaoBundle) :=
  let dados := parse_dados_boleto texto
  let validacao := validar_boleto_febraban dados hoje
  match preparar_features dados with
  | none => none
  | some features =>
    let predicao := predizer_fraude classe p0 p1 features
    match gerar_explicacao_humanizada dados validacao predicao agora with
    | none => none
    | some explicacao =>
      some (dados, validacao, predicao, fraudeAnalise validacao predicao, explicacao)

/-- The OCR text of the end-to-end scenario: a vencimento 30 days after the
reference date 2026-10-12, the amount R$ 150,00 and an arithmetically
correct bare 47-digit linha digitável for bank code 001. -/
def textoC6 : Str :=
  "Vencimento: 11/11/2026 Valor: R$ 150,00 00190000090095000000000000000000000000000015000".data

/-- Value-level equality of two `PyNum`s (cross multiplication). -/
def pnEqV (a b : PyNum) : Bool := a.num * b.den == b.num * a.den

/-- Nearest-integer rounding, the reading of the claim C5's `round(x)`. -/
def specRound (q : PyNum) : Int := pnFloor (pnAdd q ⟨1, 2⟩)

/-- The severity-to-impact/color discipline each razão actually satisfies:
entries from validation errors and the generic placeholder follow the fixed
map; machine-learning and elevated-value entries carry their own hard-coded
triples. -/
def razaoConformeMapa (r : Razao) : Prop :=
  ((r.categoria = "validacao_tecnica".data ∨ r.categoria = "geral".data) →
    ((r.gravidade = "critica".data ∧ r.cor = "danger".data ∧ r.impacto = 95)
     ∨ (r.gravidade = "alta".data ∧ r.cor = "warning".data ∧ r.impacto = 80)
     ∨ (r.gravidade = "media".data ∧ r.cor = "medium".data ∧ r.impacto = 60)
     ∨ (r.gravidade = "baixa".data ∧ r.cor = "primary".data ∧ r.impacto = 30)))
  ∧ (r.categoria = "machine_learning".data →
      ((r.gravidade = "alta".data ∧ r.cor = "danger".data ∧ r.impacto = 85)
       ∨ (r.gravidade = "baixa".data ∧ r.cor = "success".data ∧ r.impacto = 15)))
  ∧ (r.categoria = "valor".data →
      (r.gravidade = "media".data ∧ r.cor = "warning".data ∧ r.impacto = 60))

/-! ## Helper lemmas -/

theorem length_beq_zero (l : List Str) : (l.length == 0) = l.isEmpty := by
  cases l <;> rfl

theorem ne_pre {c pre rest : Str} (k : Nat) (hk : k < pre.length)
    (h : c.getD k '!' ≠ pre.getD k '!') : c ≠ pre ++ rest := by
  intro he
  exact h (by rw [he, List.getD_append _ _ _ _ hk])

theorem ne_pre_pre {pre₁ rest₁ pre₂ rest₂ : Str} (k : Nat) (h1 : k < pre₁.length)
    (h2 : k < pre₂.length) (h : pre₁.getD k '!' ≠ pre₂.getD k '!') :
    pre₁ ++ rest₁ ≠ pre₂ ++ rest₂ := by
  intro he
  have hc := congrArg (fun l => l.getD k '!') he
  simp only [List.getD_append _ _ _ _ h1, List.getD_append _ _ _ _ h2] at hc
  exact h hc

theorem not_mem_append' {a : Str} {l₁ l₂ : List Str} (h₁ : a ∉ l₁) (h₂ : a ∉ l₂) :
    a ∉ l₁ ++ l₂ := fun h => (List.mem_append.mp h).elim h₁ h₂

theorem not_mem_ifsingle {c : Prop} [Decidable c] {M x : Str} (h : M ≠ x) :
    M ∉ (if c then [x] else []) := by
  split <;> simp [h]

theorem digitChar_isDigit (d : Nat) (h : d ≤ 9) : (Char.ofNat (48 + d)).isDigit = true := by
  interval_cases d <;> decide

theorem digit_bounds (c : Char) (h : c.isDigit = true) : 48 ≤ c.toNat ∧ c.toNat ≤ 57 := by
  simp [Char.isDigit, Char.le_def, decide_eq_true_eq] at h
  exact ⟨h.1, h.2⟩

theorem digitVal_inj (a b : Char) (ha : a.isDigit = true) (hb : b.isDigit = true)
    (h : digitVal a = digitVal b) : a = b := by
  have h1 := digit_bounds a ha
  have h2 := digit_bounds b hb
  unfold digitVal at h
  have h3 : a.toNat = b.toNat := by omega
  exact Char.eq_of_val_eq (UInt32.toNat.inj h3)

theorem dv10_isDigit (s : Str) : (calcular_dv_modulo10 s).isDigit = true := by
  unfold calcular_dv_modulo10
  have hm : somaMod10 s.reverse 2 % 10 < 10 := Nat.mod_lt _ (by decide)
  exact digitChar_isDigit _ (by split <;> omega)

theorem dv11_isDigit (s : Str) : (calcular_dv_modulo11 s).isDigit = true := by
  unfold calcular_dv_modulo11
  have hm : somaMod11 s.reverse 2 % 11 < 11 := Nat.mod_lt _ (by decide)
  exact digitChar_isDigit _ (by split <;> omega)

/-! ## Claim theorems -/

/-- C8: for every input field set (sub-validator exception paths included as
their error results) the top-level `validar_boleto_febraban` and every
individual sub-validator return `valido` equal to the emptiness of their
`erros` list. -/
theorem c8_valido_iff_no_erros :
    (∀ (dados : DadosBoleto) (hoje : Int),
      (validar_boleto_febraban dados hoje).valido
        = (validar_boleto_febraban dados hoje).erros.isEmpty)
    ∧ (∀ s, (validar_linha_digitavel s).valido = (validar_linha_digitavel s).erros.isEmpty)
    ∧ (∀ s, (validar_codigo_barras s).valido = (validar_codigo_barras s).erros.isEmpty)
    ∧ (∀ v, (validar_valor v).valido = (validar_valor v).erros.isEmpty)
    ∧ (∀ s hoje, (validar_vencimento s hoje).valido
        = (validar_vencimento s hoje).erros.isEmpty)
    ∧ (∀ s, (validar_cnpj s).valido = (validar_cnpj s).erros.isEmpty)
    ∧ (∀ s, (validar_codigo_banco s).valido = (validar_codigo_banco s).erros.isEmpty) := by
  refine ⟨fun dados hoje => ?_, fun s => ?_, fun s => ?_, fun v => ?_,
    fun s hoje => ?_, fun s => ?_, fun s => ?_⟩
  · exact length_beq_zero _
  · unfold validar_linha_digitavel
    dsimp only
    split
    · rfl
    · exact length_beq_zero _
  · unfold validar_codigo_barras
    dsimp only
    split
    · rfl
    · exact length_beq_zero _
  · exact length_beq_zero _
  · unfold validar_vencimento
    dsimp only
    split
    · rfl
    · exact length_beq_zero _
  · unfold validar_cnpj
    dsimp only
    split
    · rfl
    · split
      · rfl
      · exact length_beq_zero _
  · exact length_beq_zero _

/-- C1: the fused verdict of `processar_boleto` is the boolean OR of the two
signals, `metodos` records exactly the signals that fired, and `motivos` is
the validation error list exactly when validation failed. -/
theorem c1_fusion : ∀ (v : ValidationFull) (p : PredicaoML),
    (fraudeAnalise v p).isFraudulento = (!v.valido || p.is_fraudulento)
    ∧ ("validacao_febraban".data ∈ (fraudeAnalise v p).metodos ↔ v.valido = false)
    ∧ ("modelo_ml".data ∈ (fraudeAnalise v p).metodos ↔ p.is_fraudulento = true)
    ∧ (fraudeAnalise v p).motivos = (if v.valido then [] else v.erros)
    ∧ (v.valido = false → p.is_fraudulento = false →
        (fraudeAnalise v p).isFraudulento = true
        ∧ (fraudeAnalise v p).metodos = ["validacao_febraban".data]) := by
  intro v p
  rcases hv : v.valido <;> rcases hp : p.is_fraudulento <;>
    simp [fraudeAnalise, hv, hp]

/-- C1 witness at a concrete invalid validation and non-fraud classifier
output. -/
theorem c1_fusion_witness :
    (fraudeAnalise ⟨false, ["e".data], []⟩
        (predizer_fraude 1 ⟨1, 2⟩ ⟨1, 2⟩ ⟨0, 0, 0, ⟨0, 1⟩, 0, 0, 0⟩)).isFraudulento = true
    ∧ (fraudeAnalise ⟨false, ["e".data], []⟩
        (predizer_fraude 1 ⟨1, 2⟩ ⟨1, 2⟩ ⟨0, 0, 0, ⟨0, 1⟩, 0, 0, 0⟩)).metodos
      = ["validacao_febraban".data] :=
  (c1_fusion ⟨false, ["e".data], []⟩
    (predizer_fraude 1 ⟨1, 2⟩ ⟨1, 2⟩ ⟨0, 0, 0, ⟨0, 1⟩, 0, 0, 0⟩)).2.2.2.2 rfl rfl

/-- C5 counterexample: at the contract-respecting classifier output
`(class = 1, P0 = 11/16, P1 = 5/16)` (both probabilities exactly
representable in binary64 and summing to 1), the code computes
`int(0.6875 * 100) = 68`, while nearest-integer rounding gives 69; the
claimed equality `score = round(P0 * 100)` is false. -/
theorem c5_counterexample :
    pnLe ⟨0, 1⟩ ⟨11, 16⟩ = true ∧ pnLe ⟨0, 1⟩ ⟨5, 16⟩ = true
    ∧ pnEqV (pnAdd ⟨11, 16⟩ ⟨5, 16⟩) ⟨1, 1⟩ = true
    ∧ (predizer_fraude 1 ⟨11, 16⟩ ⟨5, 16⟩ ⟨0, 0, 0, ⟨0, 1⟩, 0, 0, 0⟩).score_fraude = 68
    ∧ specRound (pnMul ⟨11, 16⟩ ⟨100, 1⟩) = 69
    ∧ (predizer_fraude 1 ⟨11, 16⟩ ⟨5, 16⟩ ⟨0, 0, 0, ⟨0, 1⟩, 0, 0, 0⟩).score_fraude
        ≠ specRound (pnMul ⟨11, 16⟩ ⟨100, 1⟩) := by
  decide

/-- C5 amended: for every contract-respecting classifier output the fraud
score is the **truncation** `int(P0 * 100)` — the floor of `P0 * 100`, not
its nearest-integer rounding — it lies in `0..100` when `P0 ≤ 1`, and
`confianca = max(P0, P1)`. -/
theorem c5_amended : ∀ (classe : Nat) (p0 p1 : PyNum) (F : Features),
    0 < p0.den → pnLe ⟨0, 1⟩ p0 = true →
    (predizer_fraude classe p0 p1 F).score_fraude = pnFloor (pnMul p0 ⟨100, 1⟩)
    ∧ (predizer_fraude classe p0 p1 F).confianca = pnMax p0 p1
    ∧ (pnLe p0 ⟨1, 1⟩ = true →
        0 ≤ (predizer_fraude classe p0 p1 F).score_fraude
        ∧ (predizer_fraude classe p0 p1 F).score_fraude ≤ 100) := by
  intro classe p0 p1 F hden h0
  have hnum : 0 ≤ p0.num := by
    simp [pnLe, decide_eq_true_eq] at h0
    omega
  have hmulnum : (pnMul p0 ⟨100, 1⟩).num = p0.num * 100 := rfl
  have hscore : (predizer_fraude classe p0 p1 F).score_fraude
      = pnFloor (pnMul p0 ⟨100, 1⟩) := by
    show pyInt (pnMul p0 ⟨100, 1⟩) = pnFloor (pnMul p0 ⟨100, 1⟩)
    unfold pyInt pnFloor
    rw [if_neg (by rw [hmulnum]; omega)]
  refine ⟨hscore, rfl, fun h1 => ?_⟩
  have hnum1 : p0.num ≤ p0.den := by
    simp [pnLe, decide_eq_true_eq] at h1
    omega
  rw [hscore]
  constructor
  · exact Int.ediv_nonneg (by omega) (by positivity)
  · show p0.num * 100 / ((p0.den * 1 : Nat) : Int) ≤ 100
    have hcast : (0 : Int) < ((p0.den * 1 : Nat) : Int) := by
      simp
      omega
    calc p0.num * 100 / ((p0.den * 1 : Nat) : Int)
        ≤ 100 * ((p0.den * 1 : Nat) : Int) / ((p0.den * 1 : Nat) : Int) := by
          apply Int.ediv_le_ediv hcast
          push_cast
          nlinarith
      _ = 100 := Int.mul_ediv_cancel _ (by omega)

/-- C5 amended witness at `(class = 1, P0 = 1/2, P1 = 1/2)`. -/
theorem c5_amended_witness :
    (predizer_fraude 1 ⟨1, 2⟩ ⟨1, 2⟩ ⟨0, 0, 0, ⟨0, 1⟩, 0, 0, 0⟩).score_fraude
        = pnFloor (pnMul ⟨1, 2⟩ ⟨100, 1⟩)
    ∧ (predizer_fraude 1 ⟨1, 2⟩ ⟨1, 2⟩ ⟨0, 0, 0, ⟨0, 1⟩, 0, 0, 0⟩).confianca
        = pnMax ⟨1, 2⟩ ⟨1, 2⟩
    ∧ (pnLe ⟨1, 2⟩ ⟨1, 1⟩ = true →
        0 ≤ (predizer_fraude 1 ⟨1, 2⟩ ⟨1, 2⟩ ⟨0, 0, 0, ⟨0, 1⟩, 0, 0, 0⟩).score_fraude
        ∧ (predizer_fraude 1 ⟨1, 2⟩ ⟨1, 2⟩ ⟨0, 0, 0, ⟨0, 1⟩, 0, 0, 0⟩).score_fraude ≤ 100) :=
  c5_amended 1 ⟨1, 2⟩ ⟨1, 2⟩ ⟨0, 0, 0, ⟨0, 1⟩, 0, 0, 0⟩ (by decide) (by decide)

/-- C10: whenever no linha digitável is extracted, `parse_dados_boleto`
leaves `codigo_banco` as `None` but sets `banco_nome` to the non-null string
`Banco None` (the bank lookup is applied to the null code and the
unknown-code fallback renders it). -/
theorem c10_banco_none : ∀ texto : Str, extrair_linha_digitavel texto = none →
    (parse_dados_boleto texto).codigo_banco = none
    ∧ (parse_dados_boleto texto).banco_nome = some "Banco None".data := by
  intro texto h
  constructor <;> simp [parse_dados_boleto, h, identificar_banco, pyTruthyStr]

/-- C10 witness at the empty OCR text. -/
theorem c10_banco_none_witness :
    (parse_dados_boleto []).codigo_banco = none
    ∧ (parse_dados_boleto []).banco_nome = some "Banco None".data :=
  c10_banco_none [] (by decide)

/-- C6 (code bug): for OCR text containing an arithmetically correct
47-digit linha digitável for bank 001, the amount R$ 150,00 and a
vencimento 30 days after the reference date 2026-10-12, with the classifier
stub returning `(class = 1, [0.05, 0.95])`, the bundle's risk level is
`BAIXO` as the claim states — but, contrary to the claim, the razões list
contains a gravidade-`alta` entry: the model stores `score_fraude` as the
integer `int(0.05 * 100) = 5`, and the explainer compares that integer
against the probability-scale threshold `0.7`, so `5 > 0.7` spuriously
fires the suspicious-pattern reason. -/
theorem c6_baixo_with_alta_razao :
    (processar_boleto textoC6 (toordinal 2026 10 12) 1 ⟨1, 20⟩ ⟨19, 20⟩ "T".data).map
      (fun r => (r.2.2.2.2.recomendacao.nivel_risco,
        r.2.2.2.2.razoes.map (fun x => (x.gravidade, x.cor, x.impacto))))
    = some ("BAIXO".data, [("alta".data, "danger".data, (85 : Int))]) := by decide

/-- C7 counterexample: a produced bundle whose single razão has gravidade
`alta` but color `danger` and impact 85 — deviating from the claimed
severity map (`alta` should give `warning` and 80). -/
theorem c7_counterexample :
    (gerar_explicacao_humanizada
        ⟨none, none, some ⟨150, 1⟩, none, none, none, none, none, none⟩
        ⟨true, [], []⟩
        (predizer_fraude 1 ⟨1, 20⟩ ⟨19, 20⟩ ⟨0, 0, 0, ⟨0, 1⟩, 0, 0, 0⟩) "T".data).map
      (fun b => b.razoes.map (fun r => (r.gravidade, r.cor, r.impacto)))
      = some [("alta".data, "danger".data, (85 : Int))]
    ∧ (85 : Int) ≠ calcular_impacto "alta".data
    ∧ "danger".data ≠ get_cor_gravidade "alta".data := by decide

theorem mem_ifcons {α : Type} {c : Prop} [Decidable c] {x A : α} {l : List α}
    (h : x ∈ (if c then [A] else l)) : x = A ∨ x ∈ l := by
  split at h
  · exact Or.inl (List.mem_singleton.mp h)
  · exact Or.inr h

theorem det_cases (e : Str) :
    determinar_gravidade e = "critica".data ∨ determinar_gravidade e = "alta".data
    ∨ determinar_gravidade e = "media".data ∨ determinar_gravidade e = "baixa".data := by
  unfold determinar_gravidade
  dsimp only
  split_ifs <;> simp

theorem razaoValidacao_conforme (e : Str) : razaoConformeMapa (razaoValidacao e) := by
  unfold razaoConformeMapa razaoValidacao
  dsimp only
  refine ⟨fun _ => ?_, fun h => absurd h (by decide), fun h => absurd h (by decide)⟩
  rcases det_cases e with h | h | h | h <;> rw [h] <;> decide

theorem razaoMLAlta_conforme (s : Int) : razaoConformeMapa (razaoMLAlta s) := by
  unfold razaoConformeMapa razaoMLAlta
  dsimp only
  exact ⟨fun h => absurd h (by decide), fun _ => Or.inl ⟨rfl, rfl, rfl⟩,
    fun h => absurd h (by decide)⟩

theorem razaoMLBaixa_conforme (s : Int) : razaoConformeMapa (razaoMLBaixa s) := by
  unfold razaoConformeMapa razaoMLBaixa
  dsimp only
  exact ⟨fun h => absurd h (by decide), fun _ => Or.inr ⟨rfl, rfl, rfl⟩,
    fun h => absurd h (by decide)⟩

theorem razaoValorElevado_conforme (v : PyNum) : razaoConformeMapa (razaoValorElevado v) := by
  unfold razaoConformeMapa razaoValorElevado
  dsimp only
  exact ⟨fun h => absurd h (by decide), fun h => absurd h (by decide),
    fun _ => ⟨rfl, rfl, rfl⟩⟩

/-- C7 amended: in every bundle the code produces, validation-error razões
and the generic placeholder carry exactly the impact and color of the fixed
severity map (critica 95 danger, alta 80 warning, media 60 medium, baixa 30
primary); the machine-learning razões instead carry the hard-coded pairs
(alta, danger, 85) and (baixa, success, 15), and the elevated-value razão
(media, warning, 60). -/
theorem c7_amended : ∀ (dados : DadosBoleto) (validacao : ValidationFull)
    (predicao : PredicaoML) (agora : Str) (b : ExplicacaoBundle),
    gerar_explicacao_humanizada dados validacao predicao agora = some b →
    ∀ r ∈ b.razoes, razaoConformeMapa r := by
  intro dados validacao predicao agora b hb r hr
  rcases hrz : gerar_razoes_detalhadas dados validacao predicao with _ | razoes
  · simp only [gerar_explicacao_humanizada, hrz] at hb
    exact Option.noConfusion hb
  · simp only [gerar_explicacao_humanizada, hrz, Option.some.injEq] at hb
    rw [← hb] at hr
    dsimp only at hr
    rcases hv : dados.valor with _ | v
    · rw [gerar_razoes_detalhadas, hv] at hrz
      exact absurd hrz (by simp)
    · rw [gerar_razoes_detalhadas, hv] at hrz
      dsimp only at hrz
      rw [Option.some.injEq] at hrz
      rw [← hrz] at hr
      rcases mem_ifcons hr with rfl | hr
      · exact ⟨fun _ => Or.inr (Or.inr (Or.inr ⟨rfl, rfl, rfl⟩)),
          fun h => absurd h (by decide), fun h => absurd h (by decide)⟩
      · rcases List.mem_append.mp hr with h | h
        · rcases List.mem_append.mp h with h | h
          · rcases List.mem_map.mp h with ⟨e, _, rfl⟩
            exact razaoValidacao_conforme e
          · rcases mem_ifcons h with rfl | h
            · exact razaoMLAlta_conforme _
            · rcases mem_ifcons h with rfl | h
              · exact razaoMLBaixa_conforme _
              · exact absurd h (by simp)
        · rcases mem_ifcons h with rfl | h
          · exact razaoValorElevado_conforme _
          · exact absurd h (by simp)

theorem soDigitos_id {s : Str} (h : ∀ c ∈ s, c.isDigit = true) : soDigitos s = s := by
  unfold soDigitos
  exact List.filter_eq_self.mpr h

theorem validar_linha_digitos (digitos : Str) (hall : ∀ c ∈ digitos, c.isDigit = true)
    (hlen : digitos.length = 47) :
    validar_linha_digitavel digitos
      = ⟨(linhaDVErros digitos).length == 0, linhaDVErros digitos⟩ := by
  unfold validar_linha_digitavel
  dsimp only
  rw [soDigitos_id hall, if_neg (fun h => h hlen)]

/-- C3: for every 44-digit string, replacing the digit at index 4 with the
modulo-11 check digit computed over positions `[0:4) ++ [5:44)` and
re-validating reports no barcode error (the result is valid with an empty
error list). -/
theorem c3_mod11_roundtrip : ∀ s : Str, s.length = 44 → (∀ c ∈ s, c.isDigit = true) →
    validar_codigo_barras
      (s.take 4 ++ ([calcular_dv_modulo11 (s.take 4 ++ s.drop 5)] ++ s.drop 5))
      = ⟨true, []⟩ := by
  intro s hlen hdig
  set pre := s.take 4 with hpre
  set post := s.drop 5 with hpost
  set dv := calcular_dv_modulo11 (pre ++ post) with hdv
  have hprelen : pre.length = 4 := by rw [hpre]; simp [hlen]
  have hpostlen : post.length = 39 := by rw [hpost]; simp [hlen]
  have hdigits : ∀ c ∈ pre ++ ([dv] ++ post), c.isDigit = true := by
    intro c hc
    rcases List.mem_append.mp hc with h | h
    · exact hdig c (List.take_subset _ _ h)
    · rcases List.mem_append.mp h with h | h
      · rcases List.mem_singleton.mp h with rfl
        exact dv11_isDigit _
      · exact hdig c (List.drop_subset _ _ h)
  have hlentot : (pre ++ ([dv] ++ post)).length = 44 := by
    simp [hprelen, hpostlen]
  unfold validar_codigo_barras
  dsimp only
  rw [soDigitos_id hdigits, if_neg (fun h => h hlentot)]
  have hgd : (pre ++ ([dv] ++ post)).getD 4 ' ' = dv := by
    rw [List.getD_append_right _ _ _ _ (by omega)]
    simp [hprelen]
  have ht4 : (pre ++ ([dv] ++ post)).take 4 = pre := List.take_left' hprelen
  have hd5 : (pre ++ ([dv] ++ post)).drop 5 = post := by
    rw [show pre ++ ([dv] ++ post) = (pre ++ [dv]) ++ post from by
      simp [List.append_assoc]]
    exact List.drop_left' (by simp [hprelen])
  rw [hgd, ht4, hd5, if_neg (fun h => h hdv)]
  rfl

/-- C3 witness at the all-zero 44-digit string. -/
theorem c3_mod11_roundtrip_witness :
    validar_codigo_barras
      ((List.replicate 44 '0').take 4
        ++ ([calcular_dv_modulo11 ((List.replicate 44 '0').take 4
              ++ (List.replicate 44 '0').drop 5)]
            ++ (List.replicate 44 '0').drop 5))
      = ⟨true, []⟩ :=
  c3_mod11_roundtrip (List.replicate 44 '0') (by decide) (by decide)

/-- C2: for each of the three linha-digitável blocks, appending the
modulo-10 check digit to a valid block prefix (9 digits for block 1, 10 for
blocks 2 and 3) and re-validating the 47-digit linha — the other positions
holding arbitrary digits — reports no DV error for that block. -/
theorem c2_mod10_roundtrip :
    (∀ (p rest : Str) (e f : Char), p.length = 9 → (∀ c ∈ p, c.isDigit = true) →
      rest.length = 37 → (∀ c ∈ rest, c.isDigit = true) →
      msgDV1 e f ∉ (validar_linha_digitavel
        (p ++ ([calcular_dv_modulo10 p] ++ rest))).erros)
    ∧ (∀ (pre p rest : Str) (e f : Char), pre.length = 10 →
      (∀ c ∈ pre, c.isDigit = true) → p.length = 10 → (∀ c ∈ p, c.isDigit = true) →
      rest.length = 26 → (∀ c ∈ rest, c.isDigit = true) →
      msgDV2 e f ∉ (validar_linha_digitavel
        (pre ++ (p ++ ([calcular_dv_modulo10 p] ++ rest)))).erros)
    ∧ (∀ (pre1 pre2 p rest : Str) (e f : Char), pre1.length = 10 →
      (∀ c ∈ pre1, c.isDigit = true) → pre2.length = 11 → (∀ c ∈ pre2, c.isDigit = true) →
      p.length = 10 → (∀ c ∈ p, c.isDigit = true) →
      rest.length = 15 → (∀ c ∈ rest, c.isDigit = true) →
      msgDV3 e f ∉ (validar_linha_digitavel
        (pre1 ++ (pre2 ++ (p ++ ([calcular_dv_modulo10 p] ++ rest))))).erros) := by
  refine ⟨?_, ?_, ?_⟩
  · intro p rest e f hp hpd hr hrd
    have hdigits : ∀ c ∈ p ++ ([calcular_dv_modulo10 p] ++ rest), c.isDigit = true := by
      intro c hc
      rcases List.mem_append.mp hc with h | h
      · exact hpd c h
      · rcases List.mem_append.mp h with h | h
        · rcases List.mem_singleton.mp h with rfl
          exact dv10_isDigit _
        · exact hrd c h
    have hlen : (p ++ ([calcular_dv_modulo10 p] ++ rest)).length = 47 := by simp [hp, hr]
    rw [validar_linha_digitos _ hdigits hlen]
    unfold linhaDVErros
    dsimp only
    have hc1 : (p ++ ([calcular_dv_modulo10 p] ++ rest)).take 10
        = p ++ [calcular_dv_modulo10 p] := by
      rw [show p ++ ([calcular_dv_modulo10 p] ++ rest)
          = (p ++ [calcular_dv_modulo10 p]) ++ rest from by simp [List.append_assoc]]
      exact List.take_left' (by simp [hp])
    rw [hc1]
    rw [show (p ++ [calcular_dv_modulo10 p]).getD 9 ' ' = calcular_dv_modulo10 p from by
      rw [List.getD_append_right _ _ _ _ (by omega)]
      simp [hp]]
    rw [show (p ++ [calcular_dv_modulo10 p]).take 9 = p from List.take_left' hp]
    rw [if_neg (fun h => h rfl)]
    refine not_mem_append' (not_mem_append' (by simp) (not_mem_ifsingle ?_))
      (not_mem_ifsingle ?_)
    · exact ne_pre_pre 2 (by decide) (by decide) (by decide)
    · exact ne_pre_pre 2 (by decide) (by decide) (by decide)
  · intro pre p rest e f hpre hpred hp hpd hr hrd
    set dv := calcular_dv_modulo10 p with hdvdef
    have hdigits : ∀ c ∈ pre ++ (p ++ ([dv] ++ rest)), c.isDigit = true := by
      intro c hc
      rcases List.mem_append.mp hc with h | h
      · exact hpred c h
      · rcases List.mem_append.mp h with h | h
        · exact hpd c h
        · rcases List.mem_append.mp h with h | h
          · rcases List.mem_singleton.mp h with rfl
            exact dv10_isDigit _
          · exact hrd c h
    have hlen : (pre ++ (p ++ ([dv] ++ rest))).length = 47 := by simp [hpre, hp, hr]
    rw [validar_linha_digitos _ hdigits hlen]
    unfold linhaDVErros
    dsimp only
    have hc2 : ((pre ++ (p ++ ([dv] ++ rest))).drop 10).take 11 = p ++ [dv] := by
      rw [List.drop_left' hpre]
      rw [show p ++ ([dv] ++ rest) = (p ++ [dv]) ++ rest from by simp [List.append_assoc]]
      exact List.take_left' (by simp [hp])
    have hc3 : ((pre ++ (p ++ ([dv] ++ rest))).drop 21).take 11 = rest.take 11 := by
      rw [show pre ++ (p ++ ([dv] ++ rest)) = (pre ++ (p ++ [dv])) ++ rest from by
        simp [List.append_assoc]]
      rw [List.drop_left' (by simp [hpre, hp])]
    rw [hc2, hc3]
    rw [show (p ++ [dv]).getD 10 ' ' = dv from by
      rw [List.getD_append_right _ _ _ _ (by omega)]
      simp [hp]]
    rw [show (p ++ [dv]).take 10 = p from List.take_left' hp]
    rw [if_neg (show ¬(dv ≠ calcular_dv_modulo10 p) from fun h => h hdvdef)]
    refine not_mem_append' (not_mem_append' (not_mem_ifsingle ?_) (by simp))
      (not_mem_ifsingle ?_)
    · exact ne_pre_pre 2 (by decide) (by decide) (by decide)
    · exact ne_pre_pre 2 (by decide) (by decide) (by decide)
  · intro pre1 pre2 p rest e f hpre1 hpre1d hpre2 hpre2d hp hpd hr hrd
    set dv := calcular_dv_modulo10 p with hdvdef
    have hdigits : ∀ c ∈ pre1 ++ (pre2 ++ (p ++ ([dv] ++ rest))), c.isDigit = true := by
      intro c hc
      rcases List.mem_append.mp hc with h | h
      · exact hpre1d c h
      · rcases List.mem_append.mp h with h | h
        · exact hpre2d c h
        · rcases List.mem_append.mp h with h | h
          · exact hpd c h
          · rcases List.mem_append.mp h with h | h
            · rcases List.mem_singleton.mp h with rfl
              exact dv10_isDigit _
            · exact hrd c h
    have hlen : (pre1 ++ (pre2 ++ (p ++ ([dv] ++ rest)))).length = 47 := by
      simp [hpre1, hpre2, hp, hr]
    rw [validar_linha_digitos _ hdigits hlen]
    unfold linhaDVErros
    dsimp only
    have hc3 : ((pre1 ++ (pre2 ++ (p ++ ([dv] ++ rest)))).drop 21).take 11
        = p ++ [dv] := by
      rw [show pre1 ++ (pre2 ++ (p ++ ([dv] ++ rest)))
          = (pre1 ++ pre2) ++ (p ++ ([dv] ++ rest)) from by simp [List.append_assoc]]
      rw [List.drop_left' (by simp [hpre1, hpre2])]
      rw [show p ++ ([dv] ++ rest) = (p ++ [dv]) ++ rest from by simp [List.append_assoc]]
      exact List.take_left' (by simp [hp])
    rw [hc3]
    rw [show (p ++ [dv]).getD 10 ' ' = dv from by
      rw [List.getD_append_right _ _ _ _ (by omega)]
      simp [hp]]
    rw [show (p ++ [dv]).take 10 = p from List.take_left' hp]
    rw [if_neg (show ¬(dv ≠ calcular_dv_modulo10 p) from fun h => h hdvdef)]
    refine not_mem_append' (not_mem_append' (not_mem_ifsingle ?_) (not_mem_ifsingle ?_))
      (by simp)
    · exact ne_pre_pre 2 (by decide) (by decide) (by decide)
    · exact ne_pre_pre 2 (by decide) (by decide) (by decide)

/-- C2 witness: the three block round-trips at concrete digit strings. -/
theorem c2_mod10_roundtrip_witness :
    msgDV1 '0' '1' ∉ (validar_linha_digitavel
      ("001000000".data ++ ([calcular_dv_modulo10 "001000000".data]
        ++ List.replicate 37 '0'))).erros
    ∧ msgDV2 '0' '1' ∉ (validar_linha_digitavel
      (List.replicate 10 '0' ++ ("0095000000".data
        ++ ([calcular_dv_modulo10 "0095000000".data] ++ List.replicate 26 '0')))).erros
    ∧ msgDV3 '0' '1' ∉ (validar_linha_digitavel
      (List.replicate 10 '0' ++ (List.replicate 11 '0' ++ ("1234567890".data
        ++ ([calcular_dv_modulo10 "1234567890".data] ++ List.replicate 15 '0'))))).erros :=
  ⟨c2_mod10_roundtrip.1 "001000000".data (List.replicate 37 '0') '0' '1'
      (by decide) (by decide) (by decide) (by decide),
   c2_mod10_roundtrip.2.1 (List.replicate 10 '0') "0095000000".data
      (List.replicate 26 '0') '0' '1'
      (by decide) (by decide) (by decide) (by decide) (by decide) (by decide),
   c2_mod10_roundtrip.2.2 (List.replicate 10 '0') (List.replicate 11 '0')
      "1234567890".data (List.replicate 15 '0') '0' '1'
      (by decide) (by decide) (by decide) (by decide) (by decide) (by decide)
      (by decide) (by decide)⟩

theorem cnpjSoma_nil (s : Str) : cnpjSoma s [] = 0 := by
  cases s <;> rfl

theorem cnpjSoma_append (p t : Str) (w : List Nat) (h : w.length ≤ p.length) :
    cnpjSoma (p ++ t) w = cnpjSoma p w := by
  induction w generalizing p t with
  | nil => rw [cnpjSoma_nil, cnpjSoma_nil]
  | cons wh wt ih =>
    cases p with
    | nil => simp at h
    | cons a as =>
      simp only [List.cons_append]
      show digitVal a * wh + cnpjSoma (as ++ t) wt = digitVal a * wh + cnpjSoma as wt
      simp only [List.length_cons] at h
      rw [ih as t (by omega)]

/-- C4 counterexample: 11.222.333/0001-81 is a check-digit-valid CNPJ;
flipping its FIRST check digit (digit 12, 8 → 9) produces TWO errors, not
the claimed single corresponding error, because digit 12 feeds the second
weighting. -/
theorem c4_counterexample :
    validar_cnpj "11222333000181".data = ⟨true, []⟩
    ∧ (validar_cnpj "11222333000191".data).erros = [msgCnpjDV1, msgCnpjDV2]
    ∧ (validar_cnpj "11222333000191".data).erros.length ≠ 1 := by decide

/-- C4 amended: a correctly check-digited CNPJ validates with zero errors
and all-identical-digit CNPJs are rejected, as claimed; flipping the second
check digit produces exactly the second-DV error; but flipping the first
check digit always produces the first-DV error and may additionally produce
the second-DV error, since digit 12 is an input of the second weighting. -/
theorem c4_cnpj_amended :
    (∀ s : Str, s.length = 14 → (∀ c ∈ s, c.isDigit = true) →
      s ≠ List.replicate 14 (s.headD ' ') →
      digitVal (s.getD 12 ' ') = cnpjDV (cnpjSoma s pesoCnpj1) →
      digitVal (s.getD 13 ' ') = cnpjDV (cnpjSoma s pesoCnpj2) →
      validar_cnpj s = ⟨true, []⟩)
    ∧ (∀ (p : Str) (b c : Char), p.length = 13 → (∀ x ∈ p, x.isDigit = true) →
      b.isDigit = true → c.isDigit = true →
      digitVal (p.getD 12 ' ') = cnpjDV (cnpjSoma p pesoCnpj1) →
      digitVal b = cnpjDV (cnpjSoma p pesoCnpj2) →
      digitVal c ≠ digitVal b →
      p ++ [c] ≠ List.replicate 14 ((p ++ [c]).headD ' ') →
      validar_cnpj (p ++ [c]) = ⟨false, [msgCnpjDV2]⟩)
    ∧ (∀ (q : Str) (a b c : Char), q.length = 12 → (∀ x ∈ q, x.isDigit = true) →
      a.isDigit = true → b.isDigit = true → c.isDigit = true →
      digitVal a = cnpjDV (cnpjSoma q pesoCnpj1) →
      digitVal c ≠ digitVal a →
      q ++ [c, b] ≠ List.replicate 14 ((q ++ [c, b]).headD ' ') →
      ((validar_cnpj (q ++ [c, b])).erros = [msgCnpjDV1]
        ∨ (validar_cnpj (q ++ [c, b])).erros = [msgCnpjDV1, msgCnpjDV2]))
    ∧ (∀ ch : Char, ch.isDigit = true →
      validar_cnpj (List.replicate 14 ch) = ⟨false, [msgCnpjRep]⟩) := by
  refine ⟨?_, ?_, ?_, ?_⟩
  · intro s hlen hall hrep h12 h13
    unfold validar_cnpj
    dsimp only
    rw [soDigitos_id hall, if_neg (fun h => h hlen), if_neg hrep,
      if_neg (fun h => h h12), if_neg (fun h => h h13)]
    rfl
  · intro p b c hplen hpd hb hc h12 h13 hflip hrep
    have hall : ∀ x ∈ p ++ [c], x.isDigit = true := by
      intro x hx
      rcases List.mem_append.mp hx with h | h
      · exact hpd x h
      · rcases List.mem_singleton.mp h with rfl
        exact hc
    unfold validar_cnpj
    dsimp only
    rw [soDigitos_id hall, if_neg (fun h => h (by simp [hplen])), if_neg hrep]
    rw [show (p ++ [c]).getD 12 ' ' = p.getD 12 ' ' from
      List.getD_append _ _ _ _ (by omega)]
    rw [show (p ++ [c]).getD 13 ' ' = c from by
      rw [List.getD_append_right _ _ _ _ (by omega)]
      simp [hplen]]
    rw [cnpjSoma_append p [c] pesoCnpj1 (by rw [hplen]; decide)]
    rw [cnpjSoma_append p [c] pesoCnpj2 (by rw [hplen]; decide)]
    rw [if_neg (fun h => h h12), if_pos (by rw [← h13]; exact hflip)]
    rfl
  · intro q a b c hqlen hqd ha hb hc h12 hflip hrep
    have hall : ∀ x ∈ q ++ [c, b], x.isDigit = true := by
      intro x hx
      rcases List.mem_append.mp hx with h | h
      · exact hqd x h
      · rcases List.mem_cons.mp h with rfl | h
        · exact hc
        · rcases List.mem_singleton.mp h with rfl
          exact hb
    unfold validar_cnpj
    dsimp only
    rw [soDigitos_id hall, if_neg (fun h => h (by simp [hqlen])), if_neg hrep]
    rw [show (q ++ [c, b]).getD 12 ' ' = c from by
      rw [List.getD_append_right _ _ _ _ (by omega)]
      simp [hqlen]]
    rw [show (q ++ [c, b]).getD 13 ' ' = b from by
      rw [List.getD_append_right _ _ _ _ (by omega)]
      simp [hqlen]]
    rw [cnpjSoma_append q [c, b] pesoCnpj1 (by rw [hqlen]; decide)]
    rw [if_pos (by rw [← h12]; exact hflip)]
    by_cases h2 : digitVal b ≠ cnpjDV (cnpjSoma (q ++ [c, b]) pesoCnpj2)
    · right
      rw [if_pos h2]
      rfl
    · left
      rw [if_neg h2]
      rfl
  · intro ch hch
    have hall : ∀ x ∈ List.replicate 14 ch, x.isDigit = true := by
      intro x hx
      rcases (List.mem_replicate.mp hx).2 with rfl
      exact hch
    unfold validar_cnpj
    dsimp only
    rw [soDigitos_id hall, if_neg (fun h => h (by simp))]
    rw [if_pos (show List.replicate 14 ch
      = List.replicate 14 ((List.replicate 14 ch).headD ' ') from rfl)]

/-- C4 amended witness: the four parts at the concrete CNPJ
11.222.333/0001-81 and digit flips of it. -/
theorem c4_cnpj_amended_witness :
    validar_cnpj "11222333000181".data = ⟨true, []⟩
    ∧ validar_cnpj ("1122233300018".data ++ ['2']) = ⟨false, [msgCnpjDV2]⟩
    ∧ ((validar_cnpj ("112223330001".data ++ ['9', '1'])).erros = [msgCnpjDV1]
        ∨ (validar_cnpj ("112223330001".data ++ ['9', '1'])).erros
            = [msgCnpjDV1, msgCnpjDV2])
    ∧ validar_cnpj (List.replicate 14 '7') = ⟨false, [msgCnpjRep]⟩ :=
  ⟨c4_cnpj_amended.1 "11222333000181".data (by decide) (by decide) (by decide)
      (by decide) (by decide),
   c4_cnpj_amended.2.1 "1122233300018".data '1' '2' (by decide) (by decide)
      (by decide) (by decide) (by decide) (by decide) (by decide) (by decide),
   c4_cnpj_amended.2.2.1 "112223330001".data '8' '1' '9' (by decide) (by decide)
      (by decide) (by decide) (by decide) (by decide) (by decide) (by decide),
   c4_cnpj_amended.2.2.2 '7' (by decide)⟩

theorem not_mem_ifempty {c : Prop} [Decidable c] {M x : Str} (h : M ≠ x) :
    M ∉ (if c then [] else [x]) := by
  split <;> simp [h]

theorem linha_not_missing (s : Str) :
    msgLinhaNE ∉ (validar_linha_digitavel s).erros
    ∧ msgValorNE ∉ (validar_linha_digitavel s).erros
    ∧ msgVencNE ∉ (validar_linha_digitavel s).erros
    ∧ msgBancoNE ∉ (validar_linha_digitavel s).erros := by
  unfold validar_linha_digitavel
  dsimp only
  split
  · refine ⟨fun hm => ?_, fun hm => ?_, fun hm => ?_, fun hm => ?_⟩
    · exact ne_pre 16 (by decide) (by decide) (List.mem_singleton.mp hm)
    · exact ne_pre 0 (by decide) (by decide) (List.mem_singleton.mp hm)
    · exact ne_pre 0 (by decide) (by decide) (List.mem_singleton.mp hm)
    · exact ne_pre 0 (by decide) (by decide) (List.mem_singleton.mp hm)
  · unfold linhaDVErros
    dsimp only
    refine ⟨?_, ?_, ?_, ?_⟩ <;>
      exact not_mem_append'
        (not_mem_append' (not_mem_ifsingle (ne_pre 0 (by decide) (by decide)))
          (not_mem_ifsingle (ne_pre 0 (by decide) (by decide))))
        (not_mem_ifsingle (ne_pre 0 (by decide) (by decide)))

theorem cb_not_missing (s : Str) :
    msgLinhaNE ∉ (validar_codigo_barras s).erros
    ∧ msgValorNE ∉ (validar_codigo_barras s).erros
    ∧ msgVencNE ∉ (validar_codigo_barras s).erros
    ∧ msgBancoNE ∉ (validar_codigo_barras s).erros := by
  unfold validar_codigo_barras
  dsimp only
  split
  · refine ⟨fun hm => ?_, fun hm => ?_, fun hm => ?_, fun hm => ?_⟩
    · exact ne_pre 0 (by decide) (by decide) (List.mem_singleton.mp hm)
    · exact ne_pre 0 (by decide) (by decide) (List.mem_singleton.mp hm)
    · exact ne_pre 0 (by decide) (by decide) (List.mem_singleton.mp hm)
    · exact ne_pre 8 (by decide) (by decide) (List.mem_singleton.mp hm)
  · refine ⟨?_, ?_, ?_, ?_⟩ <;>
      exact not_mem_ifsingle (ne_pre 0 (by decide) (by decide))

theorem valor_not_missing (v : PyNum) :
    msgLinhaNE ∉ (validar_valor v).erros
    ∧ msgValorNE ∉ (validar_valor v).erros
    ∧ msgVencNE ∉ (validar_valor v).erros
    ∧ msgBancoNE ∉ (validar_valor v).erros := by
  unfold validar_valor
  dsimp only
  refine ⟨?_, ?_, ?_, ?_⟩ <;>
    exact not_mem_append' (not_mem_ifsingle (by decide)) (not_mem_ifsingle (by decide))

theorem venc_not_missing (s : Str) (hoje : Int) :
    msgLinhaNE ∉ (validar_vencimento s hoje).erros
    ∧ msgValorNE ∉ (validar_vencimento s hoje).erros
    ∧ msgVencNE ∉ (validar_vencimento s hoje).erros
    ∧ msgBancoNE ∉ (validar_vencimento s hoje).erros := by
  unfold validar_vencimento
  split
  · refine ⟨?_, ?_, ?_, ?_⟩ <;>
      exact fun hm => absurd (List.mem_singleton.mp hm) (by decide)
  · dsimp only
    refine ⟨?_, ?_, ?_, ?_⟩ <;>
      exact not_mem_append' (not_mem_ifsingle (ne_pre 0 (by decide) (by decide)))
        (not_mem_ifsingle (ne_pre 0 (by decide) (by decide)))

theorem cnpj_not_missing (s : Str) :
    msgLinhaNE ∉ (validar_cnpj s).erros
    ∧ msgValorNE ∉ (validar_cnpj s).erros
    ∧ msgVencNE ∉ (validar_cnpj s).erros
    ∧ msgBancoNE ∉ (validar_cnpj s).erros := by
  unfold validar_cnpj
  dsimp only
  split
  · refine ⟨?_, ?_, ?_, ?_⟩ <;>
      exact fun hm => absurd (List.mem_singleton.mp hm) (by decide)
  · split
    · refine ⟨?_, ?_, ?_, ?_⟩ <;>
        exact fun hm => absurd (List.mem_singleton.mp hm) (by decide)
    · refine ⟨?_, ?_, ?_, ?_⟩ <;>
        exact not_mem_append' (not_mem_ifsingle (by decide)) (not_mem_ifsingle (by decide))

theorem banco_not_missing (s : Str) :
    msgLinhaNE ∉ (validar_codigo_banco s).erros
    ∧ msgValorNE ∉ (validar_codigo_banco s).erros
    ∧ msgVencNE ∉ (validar_codigo_banco s).erros
    ∧ msgBancoNE ∉ (validar_codigo_banco s).erros := by
  unfold validar_codigo_banco
  dsimp only
  refine ⟨?_, ?_, ?_, ?_⟩
  · exact not_mem_ifempty (ne_pre 0 (by decide) (by decide))
  · exact not_mem_ifempty (ne_pre 0 (by decide) (by decide))
  · exact not_mem_ifempty (ne_pre 0 (by decide) (by decide))
  · exact not_mem_ifempty (ne_pre 8 (by decide) (by decide))

theorem linhaNE_not_when_truthy (dados : DadosBoleto) (hoje : Int)
    (h : pyTruthyStr dados.linha_digitavel = true) :
    msgLinhaNE ∉ (validar_boleto_febraban dados hoje).erros := by
  unfold validar_boleto_febraban
  dsimp only
  refine not_mem_append' (not_mem_append' (not_mem_append' (not_mem_append'
    (not_mem_append' ?_ ?_) ?_) ?_) ?_) ?_
  · rw [if_pos h]
    split
    · simp
    · exact (linha_not_missing _).1
  · split
    · split
      · simp
      · exact (cb_not_missing _).1
    · simp
  · split
    · split
      · simp
      · exact (valor_not_missing _).1
    · exact fun hm => absurd (List.mem_singleton.mp hm) (by decide)
  · split
    · split
      · simp
      · exact (venc_not_missing _ _).1
    · exact fun hm => absurd (List.mem_singleton.mp hm) (by decide)
  · split
    · split
      · simp
      · exact (cnpj_not_missing _).1
    · simp
  · split
    · split
      · simp
      · exact (banco_not_missing _).1
    · exact fun hm => absurd (List.mem_singleton.mp hm) (by decide)

theorem valorNE_not_when_truthy (dados : DadosBoleto) (hoje : Int)
    (h : pyTruthyNum dados.valor = true) :
    msgValorNE ∉ (validar_boleto_febraban dados hoje).erros := by
  unfold validar_boleto_febraban
  dsimp only
  refine not_mem_append' (not_mem_append' (not_mem_append' (not_mem_append'
    (not_mem_append' ?_ ?_) ?_) ?_) ?_) ?_
  · split
    · split
      · simp
      · exact (linha_not_missing _).2.1
    · exact fun hm => absurd (List.mem_singleton.mp hm) (by decide)
  · split
    · split
      · simp
      · exact (cb_not_missing _).2.1
    · simp
  · rw [if_pos h]
    split
    · simp
    · exact (valor_not_missing _).2.1
  · split
    · split
      · simp
      · exact (venc_not_missing _ _).2.1
    · exact fun hm => absurd (List.mem_singleton.mp hm) (by decide)
  · split
    · split
      · simp
      · exact (cnpj_not_missing _).2.1
    · simp
  · split
    · split
      · simp
      · exact (banco_not_missing _).2.1
    · exact fun hm => absurd (List.mem_singleton.mp hm) (by decide)

theorem vencNE_not_when_truthy (dados : DadosBoleto) (hoje : Int)
    (h : pyTruthyStr dados.vencimento = true) :
    msgVencNE ∉ (validar_boleto_febraban dados hoje).erros := by
  unfold validar_boleto_febraban
  dsimp only
  refine not_mem_append' (not_mem_append' (not_mem_append' (not_mem_append'
    (not_mem_append' ?_ ?_) ?_) ?_) ?_) ?_
  · split
    · split
      · simp
      · exact (linha_not_missing _).2.2.1
    · exact fun hm => absurd (List.mem_singleton.mp hm) (by decide)
  · split
    · split
      · simp
      · exact (cb_not_missing _).2.2.1
    · simp
  · split
    · split
      · simp
      · exact (valor_not_missing _).2.2.1
    · exact fun hm => absurd (List.mem_singleton.mp hm) (by decide)
  · rw [if_pos h]
    split
    · simp
    · exact (venc_not_missing _ _).2.2.1
  · split
    · split
      · simp
      · exact (cnpj_not_missing _).2.2.1
    · simp
  · split
    · split
      · simp
      · exact (banco_not_missing _).2.2.1
    · exact fun hm => absurd (List.mem_singleton.mp hm) (by decide)

theorem bancoNE_not_when_truthy (dados : DadosBoleto) (hoje : Int)
    (h : pyTruthyStr dados.codigo_banco = true) :
    msgBancoNE ∉ (validar_boleto_febraban dados hoje).erros := by
  unfold validar_boleto_febraban
  dsimp only
  refine not_mem_append' (not_mem_append' (not_mem_append' (not_mem_append'
    (not_mem_append' ?_ ?_) ?_) ?_) ?_) ?_
  · split
    · split
      · simp
      · exact (linha_not_missing _).2.2.2
    · exact fun hm => absurd (List.mem_singleton.mp hm) (by decide)
  · split
    · split
      · simp
      · exact (cb_not_missing _).2.2.2
    · simp
  · split
    · split
      · simp
      · exact (valor_not_missing _).2.2.2
    · exact fun hm => absurd (List.mem_singleton.mp hm) (by decide)
  · split
    · split
      · simp
      · exact (venc_not_missing _ _).2.2.2
    · exact fun hm => absurd (List.mem_singleton.mp hm) (by decide)
  · split
    · split
      · simp
      · exact (cnpj_not_missing _).2.2.2
    · simp
  · rw [if_pos h]
    split
    · simp
    · exact (banco_not_missing _).2.2.2

/-- C9 counterexample: a field set whose `valor` is present (a float, not
null) but equal to 0.0 still receives the `Valor não encontrado` error,
because the code tests Python truthiness, not null-ness. -/
theorem c9_counterexample :
    (⟨none, none, some ⟨0, 1⟩, none, none, none, none, none, none⟩ : DadosBoleto).valor ≠ none
    ∧ msgValorNE ∈ (validar_boleto_febraban
        ⟨none, none, some ⟨0, 1⟩, none, none, none, none, none, none⟩ 738000).erros := by
  decide

/-- C9 amended: each of the four missing-field errors is reported exactly
when that field is FALSY in the Python sense — null, the empty string, or a
zero amount — not exactly when it is null; `codigo_barras` and the CNPJ are
checked only when truthy and can never contribute a missing-field error
(removing a falsy value leaves the whole result unchanged). -/
theorem c9_missing_field_amended : ∀ (dados : DadosBoleto) (hoje : Int),
    (msgLinhaNE ∈ (validar_boleto_febraban dados hoje).erros
      ↔ pyTruthyStr dados.linha_digitavel = false)
    ∧ (msgValorNE ∈ (validar_boleto_febraban dados hoje).erros
      ↔ pyTruthyNum dados.valor = false)
    ∧ (msgVencNE ∈ (validar_boleto_febraban dados hoje).erros
      ↔ pyTruthyStr dados.vencimento = false)
    ∧ (msgBancoNE ∈ (validar_boleto_febraban dados hoje).erros
      ↔ pyTruthyStr dados.codigo_banco = false)
    ∧ (pyTruthyStr dados.codigo_barras = false →
        validar_boleto_febraban dados hoje
          = validar_boleto_febraban { dados with codigo_barras := none } hoje)
    ∧ (pyTruthyStr dados.beneficiario_cnpj = false →
        validar_boleto_febraban dados hoje
          = validar_boleto_febraban { dados with beneficiario_cnpj := none } hoje) := by
  intro dados hoje
  refine ⟨⟨fun hm => ?_, fun h => ?_⟩, ⟨fun hm => ?_, fun h => ?_⟩,
    ⟨fun hm => ?_, fun h => ?_⟩, ⟨fun hm => ?_, fun h => ?_⟩, fun h => ?_, fun h => ?_⟩
  · rcases ht : pyTruthyStr dados.linha_digitavel
    · rfl
    · exact absurd hm (linhaNE_not_when_truthy dados hoje ht)
  · simp [validar_boleto_febraban, h]
  · rcases ht : pyTruthyNum dados.valor
    · rfl
    · exact absurd hm (valorNE_not_when_truthy dados hoje ht)
  · simp [validar_boleto_febraban, h]
  · rcases ht : pyTruthyStr dados.vencimento
    · rfl
    · exact absurd hm (vencNE_not_when_truthy dados hoje ht)
  · simp [validar_boleto_febraban, h]
  · rcases ht : pyTruthyStr dados.codigo_banco
    · rfl
    · exact absurd hm (bancoNE_not_when_truthy dados hoje ht)
  · simp [validar_boleto_febraban, h]
  · unfold validar_boleto_febraban
    dsimp only
    rw [h, show pyTruthyStr (none : Option Str) = false from rfl]
    simp
  · unfold validar_boleto_febraban
    dsimp only
    rw [h, show pyTruthyStr (none : Option Str) = false from rfl]
    simp

/-- C9 amended witness at the all-null field set. -/
theorem c9_missing_field_amended_witness :
    (msgLinhaNE ∈ (validar_boleto_febraban
        ⟨none, none, none, none, none, none, none, none, none⟩ 738000).erros
      ↔ pyTruthyStr (none : Option Str) = false)
    ∧ validar_boleto_febraban ⟨none, none, none, none, none, none, none, none, none⟩ 738000
        = validar_boleto_febraban
          ({ (⟨none, none, none, none, none, none, none, none, none⟩ : DadosBoleto) with
            codigo_barras := none }) 738000 :=
  ⟨(c9_missing_field_amended ⟨none, none, none, none, none, none, none, none, none⟩ 738000).1,
   (c9_missing_field_amended
      ⟨none, none, none, none, none, none, none, none, none⟩ 738000).2.2.2.2.1 (by decide)⟩

/-- C7 amended witness: the machine-learning baixa razão of a concrete
bundle satisfies the hard-coded machine-learning triple. -/
theorem c7_amended_witness :
    ((razaoMLBaixa 0).gravidade = "alta".data ∧ (razaoMLBaixa 0).cor = "danger".data
      ∧ (razaoMLBaixa 0).impacto = 85)
    ∨ ((razaoMLBaixa 0).gravidade = "baixa".data ∧ (razaoMLBaixa 0).cor = "success".data
      ∧ (razaoMLBaixa 0).impacto = 15) := by
  have h := c7_amended ⟨none, none, some ⟨1, 1⟩, none, none, none, none, none, none⟩
    ⟨true, [], []⟩ ⟨false, 1, 0, ⟨19, 20⟩, ⟨1, 20⟩, ⟨19, 20⟩, ⟨0, 0, 0, ⟨0, 1⟩, 0, 0, 0⟩⟩
    "T".data
    ((gerar_explicacao_humanizada ⟨none, none, some ⟨1, 1⟩, none, none, none, none, none, none⟩
      ⟨true, [], []⟩ ⟨false, 1, 0, ⟨19, 20⟩, ⟨1, 20⟩, ⟨19, 20⟩, ⟨0, 0, 0, ⟨0, 1⟩, 0, 0, 0⟩⟩
      "T".data).getD
        ⟨⟨[], [], [], [], []⟩,
         ⟨⟨[], ⟨0, 1⟩, ⟨0, 1⟩, ⟨0, 1⟩, ⟨0, 1⟩, ⟨0, 1⟩⟩, ⟨0, 0, ⟨0, 1⟩, ⟨0, 1⟩⟩, ⟨false, [], []⟩⟩,
         [], ⟨[], [], [], [], []⟩, []⟩)
    (by decide) (razaoMLBaixa 0) (by decide)
  exact h.2.1 rfl
